import Mathlib

/-!
Verification of the offst token-channel core against its specification.

The Rust source is shallowly embedded: machine integers become `Nat`/`Int`
with explicit bounds (`U32`, `U64`, `U128`), checked arithmetic becomes
`Option`-valued functions, and fallible paths return `Except`.  Each section
names the source file it embeds.
-/

deriving instance DecidableEq for Except

/-- Bound for 32-bit unsigned arithmetic. -/
def U32 : Nat := 2 ^ 32

/-- Bound for 64-bit unsigned arithmetic. -/
def U64 : Nat := 2 ^ 64

/-- Bound for 128-bit unsigned arithmetic. -/
def U128 : Nat := 2 ^ 128

/-- Checked unsigned addition: `a.checked_add(b)` for a width with bound `m`. -/
def checkedAdd (m a b : Nat) : Option Nat :=
  if a + b < m then some (a + b) else none

/-- Checked unsigned subtraction: `a.checked_sub(b)` (width-independent). -/
def checkedSub (a b : Nat) : Option Nat :=
  if b ≤ a then some (a - b) else none

/-- Checked unsigned multiplication: `a.checked_mul(b)` for a width with bound `m`. -/
def checkedMul (m a b : Nat) : Option Nat :=
  if a * b < m then some (a * b) else none

namespace Legacy

/-!
Embedding of `src/src/funder/token_channel/types.rs` (the legacy mutual-credit
ledger).  `i128` values are `Int` with range `-2^127 ≤ x < 2^127`; `u128`
values are `Nat` below `U128`.  The Rust cast `x as u128` of an `i128` is
two's-complement reinterpretation, i.e. `x mod 2^128`.
-/

/-- Reinterpretation of an `i128` value as `u128` (`as u128` in Rust):
two's-complement wrap, `Int.emod` is non-negative for a positive modulus. -/
def i128AsU128 (x : Int) : Nat :=
  (x % (2 ^ 128 : Int)).toNat

/-- Mirrors `TcBalance` of `src/src/funder/token_channel/types.rs`. -/
structure TcBalance where
  balance : Int
  remote_max_debt : Nat
  local_max_debt : Nat
  local_pending_debt : Nat
  remote_pending_debt : Nat
  deriving DecidableEq

/-- Mirrors `TcBalance::new`: `remote_max_debt = cmp::max(balance, 0) as u128`,
`local_max_debt = cmp::min(-balance, 0) as u128`. -/
def TcBalance.new (balance : Int) : TcBalance :=
  { balance := balance
    remote_max_debt := i128AsU128 (max balance 0)
    local_max_debt := i128AsU128 (min (-balance) 0)
    local_pending_debt := 0
    remote_pending_debt := 0 }

/-- Mirrors `TcIdents`; public keys are byte lists. -/
structure TcIdents where
  local_public_key : List Nat
  remote_public_key : List Nat
  deriving DecidableEq

/-- Mirrors `TcPendingRequests`; the `im::HashMap`s keyed by `Uid` are modelled
as association lists from request id to request record (ids as `Nat`). -/
structure TcPendingRequests where
  pending_local_requests : List (Nat × Nat)
  pending_remote_requests : List (Nat × Nat)
  deriving DecidableEq

/-- Mirrors `RequestsStatus` (`Open`/`Closed`). -/
inductive RequestsStatus where
  | open_
  | closed
  deriving DecidableEq

/-- Mirrors `TcRequestsStatus` (fields `local` / `remote` in the source;
`local` is a Lean keyword, hence the `_status` suffix). -/
structure TcRequestsStatus where
  local_status : RequestsStatus
  remote_status : RequestsStatus
  deriving DecidableEq

/-- Mirrors `TokenChannelState` of the legacy ledger. -/
structure TokenChannelState where
  idents : TcIdents
  balance : TcBalance
  pending_requests : TcPendingRequests
  requests_status : TcRequestsStatus
  deriving DecidableEq

/-- Mirrors the legacy `TokenChannel` (a `MutualCredit`-style ledger). -/
structure TokenChannel where
  state : TokenChannelState
  deriving DecidableEq

/-- Mirrors `TokenChannel::new(local_public_key, remote_public_key, balance)`
of `src/src/funder/token_channel/types.rs`. -/
def TokenChannel.new (local_public_key remote_public_key : List Nat)
    (balance : Int) : TokenChannel :=
  { state :=
    { idents :=
      { local_public_key := local_public_key
        remote_public_key := remote_public_key }
      balance := TcBalance.new balance
      pending_requests :=
      { pending_local_requests := []
        pending_remote_requests := [] }
      requests_status :=
      { local_status := RequestsStatus.closed
        remote_status := RequestsStatus.closed } } }

end Legacy

namespace CanonicalSer

/-!
Embedding of `src/components/common/src/canonical_serialize.rs`.  Byte
strings are `List Nat` (each entry a byte value).
-/

/-- Big-endian 8-byte encoding of a `u64` value, as produced by
`write_u64::<BigEndian>`. -/
def u64BeBytes (n : Nat) : List Nat :=
  [n / 2 ^ 56 % 256, n / 2 ^ 48 % 256, n / 2 ^ 40 % 256, n / 2 ^ 32 % 256,
   n / 2 ^ 24 % 256, n / 2 ^ 16 % 256, n / 2 ^ 8 % 256, n % 256]

/-- Mirrors `impl CanonicalSerialize for Vec<T>`: write the length as 8-byte
big-endian, then append each element's serialization in order (the source's
`for` loop is a left fold over the accumulated buffer).  `usize_to_u64` of a
vector length is lossless on a 64-bit target. -/
def canonicalSerializeVec {T : Type} (ser : T → List Nat) (v : List T) : List Nat :=
  v.foldl (fun res_data t => res_data ++ ser t) (u64BeBytes v.length)

/-- Mirrors `impl CanonicalSerialize for Option<T>`: a 1-byte tag, `0` for
`None`, `1` followed by the element's serialization for `Some`. -/
def canonicalSerializeOption {T : Type} (ser : T → List Nat) : Option T → List Nat
  | none => [0]
  | some t => 1 :: ser t

/-- Big-endian interpretation of a byte list (most significant byte first). -/
def beValue (l : List Nat) : Nat :=
  l.foldl (fun acc b => acc * 256 + b) 0

end CanonicalSer

namespace Funder

/-!
Embedding of `src/components/funder/src/token_channel.rs`.  Public keys,
signatures, hash digests and nonces are byte lists (`List Nat`).  The SHA-512/256
hash and signature verification live in the `crypto` crate (not under `src/`),
so they are passed in as parameters (`sha`, `verify`).  The embedding is
parametric in the operation, incoming-message, mutation and process-error types
(`Op`, `Msg`, `Mut`, `Err`), since `FriendTcOp` and the operation processors
live in modules that are not under `src/`.
-/

/-- Length of an ed25519 public key (`PUBLIC_KEY_LEN` in the `crypto` crate). -/
def PUBLIC_KEY_LEN : Nat := 32

/-- Length of an ed25519 signature (`SIGNATURE_LEN` in the `crypto` crate). -/
def SIGNATURE_LEN : Nat := 64

/-- Length of a random nonce (`RAND_VALUE_LEN` in the `crypto` crate). -/
def RAND_VALUE_LEN : Nat := 16

/-- Lexicographic `<` on byte arrays of equal length (the `Ord` used by the
source's `sha_512_256(a) < sha_512_256(b)` comparison of 32-byte digests). -/
def bytesLt : List Nat → List Nat → Bool
  | _, [] => false
  | [], _ :: _ => true
  | a :: as, b :: bs => if a < b then true else if b < a then false else bytesLt as bs

/-- Mirrors `token_from_public_key`: the public key is copied into the start
of a zeroed `SIGNATURE_LEN` buffer (for a 32-byte key, 32 zero bytes follow). -/
def token_from_public_key (public_key : List Nat) : List Nat :=
  public_key ++ List.replicate (SIGNATURE_LEN - public_key.length) 0

/-- Mirrors `rand_nonce_from_public_key`: the first `RAND_VALUE_LEN` bytes of
the SHA-512/256 hash of the public key. -/
def rand_nonce_from_public_key (sha : List Nat → List Nat) (public_key : List Nat) :
    List Nat :=
  (sha public_key).take RAND_VALUE_LEN

/-- Modelled from the spec: the identity pair of the funder `MutualCredit`
(the `mutual_credit` module is not under `src/`; only the fields read by
`token_channel.rs` and the spec's data model are represented). -/
structure McIdents where
  local_public_key : List Nat
  remote_public_key : List Nat
  deriving DecidableEq

/-- Modelled from the spec: the balance block of the funder `MutualCredit`
(signed 128-bit balance, unsigned ceilings and pending debts). -/
structure McBalance where
  balance : Int
  local_max_debt : Nat
  remote_max_debt : Nat
  local_pending_debt : Nat
  remote_pending_debt : Nat
  deriving DecidableEq

/-- Modelled from the spec: pending-request sets of the funder `MutualCredit`,
as association lists from request id to the frozen amount. -/
structure McPendingRequests where
  pending_local_requests : List (Nat × Nat)
  pending_remote_requests : List (Nat × Nat)
  deriving DecidableEq

/-- Modelled from the spec: requests-open/closed flags (`true` = open). -/
structure McRequestsStatus where
  local_status : Bool
  remote_status : Bool
  deriving DecidableEq

/-- Modelled from the spec: the state of the funder `MutualCredit`. -/
structure MutualCreditState where
  idents : McIdents
  balance : McBalance
  pending_requests : McPendingRequests
  requests_status : McRequestsStatus
  deriving DecidableEq

/-- Modelled from the spec: the funder `MutualCredit` ledger. -/
structure MutualCredit where
  state : MutualCreditState
  deriving DecidableEq

/-- Modelled from the spec: `MutualCredit::new(local, remote, balance)` seeds
the ceilings from the sign of the initial balance (the side in debt gets a
zero ceiling toward itself), zero pending debts, empty pending sets, requests
closed. -/
def MutualCredit.new (local_public_key remote_public_key : List Nat)
    (balance : Int) : MutualCredit :=
  { state :=
    { idents :=
      { local_public_key := local_public_key
        remote_public_key := remote_public_key }
      balance :=
      { balance := balance
        local_max_debt := (max (-balance) 0).toNat
        remote_max_debt := (max balance 0).toNat
        local_pending_debt := 0
        remote_pending_debt := 0 }
      pending_requests :=
      { pending_local_requests := []
        pending_remote_requests := [] }
      requests_status :=
      { local_status := false
        remote_status := false } } }

/-- Mirrors `FriendMoveToken` (fields as constructed in `TokenChannel::new`
and read in `outgoing_to_incoming`; the struct itself lives in
`crate::types`, not under `src/`). -/
structure FriendMoveToken (Op : Type) where
  operations : List Op
  old_token : List Nat
  inconsistency_counter : Nat
  move_token_counter : Nat
  balance : Int
  local_pending_debt : Nat
  remote_pending_debt : Nat
  rand_nonce : List Nat
  new_token : List Nat
  deriving DecidableEq

/-- Mirrors `FriendMoveTokenRequest`. -/
structure FriendMoveTokenRequest (Op : Type) where
  friend_move_token : FriendMoveToken Op
  token_wanted : Bool
  deriving DecidableEq

/-- Mirrors `OutgoingMoveToken`. -/
structure OutgoingMoveToken (Op : Type) where
  outgoing_move_token_request : FriendMoveTokenRequest Op
  opt_prev_incoming_move_token : Option (FriendMoveToken Op)
  deriving DecidableEq

/-- Mirrors `MoveTokenDirection`. -/
inductive MoveTokenDirection (Op : Type) where
  | incoming (friend_move_token : FriendMoveToken Op)
  | outgoing (outgoing_move_token : OutgoingMoveToken Op)
  deriving DecidableEq

/-- Mirrors the funder `TokenChannel`. -/
structure TokenChannel (Op : Type) where
  direction : MoveTokenDirection Op
  mutual_credit : MutualCredit

/-- Mirrors `SetDirection`. -/
inductive SetDirection (Op : Type) where
  | incoming (t : FriendMoveToken Op)
  | outgoing (t : FriendMoveToken Op)
  deriving DecidableEq

/-- Mirrors `TcMutation` (the `McMutation` payload type is the parameter
`Mut`). -/
inductive TcMutation (Op Mut : Type) where
  | mcMutation (m : Mut)
  | setDirection (sd : SetDirection Op)
  | setTokenWanted
  deriving DecidableEq

/-- Mirrors `ProcessOperationOutput` of `mutual_credit::incoming` (that module
is not under `src/`; only the two fields consumed by `outgoing_to_incoming`
are represented, with parametric payload types). -/
structure ProcessOperationOutput (Msg Mut : Type) where
  incoming_message : Option Msg
  mc_mutations : List Mut
  deriving DecidableEq

/-- Mirrors `ReceiveMoveTokenError`. -/
inductive ReceiveMoveTokenError (Err : Type) where
  | chainInconsistency
  | invalidTransaction (e : Err)
  | invalidSignature
  | invalidStatedBalance
  | invalidInconsistencyCounter
  | moveTokenCounterOverflow
  | invalidMoveTokenCounter
  deriving DecidableEq

/-- Mirrors `MoveTokenReceived`. -/
structure MoveTokenReceived (Op Msg Mut : Type) where
  incoming_messages : List Msg
  mutations : List (TcMutation Op Mut)
  deriving DecidableEq

/-- Mirrors `ReceiveMoveTokenOutput`. -/
inductive ReceiveMoveTokenOutput (Op Msg Mut : Type) where
  | duplicate
  | retransmitOutgoing (t : FriendMoveToken Op)
  | received (r : MoveTokenReceived Op Msg Mut)
  deriving DecidableEq

/-- Mirrors `TokenChannel::new`: deterministic genesis.  `sha` stands for
`sha_512_256`.  Note that `first_move_token_lower` is built once from the
local/remote perspective and reused by both branches. -/
def TokenChannel.new {Op : Type} (sha : List Nat → List Nat)
    (local_public_key remote_public_key : List Nat) : TokenChannel Op :=
  let balance : Int := 0
  let mutual_credit := MutualCredit.new local_public_key remote_public_key balance
  let rand_nonce := rand_nonce_from_public_key sha remote_public_key
  let first_move_token_lower : FriendMoveToken Op :=
    { operations := []
      old_token := token_from_public_key local_public_key
      inconsistency_counter := 0
      move_token_counter := 0
      balance := 0
      local_pending_debt := 0
      remote_pending_debt := 0
      rand_nonce := rand_nonce
      new_token := token_from_public_key remote_public_key }
  if bytesLt (sha local_public_key) (sha remote_public_key) then
    -- We are the first sender
    TokenChannel.mk
      (MoveTokenDirection.outgoing
        { outgoing_move_token_request :=
          { friend_move_token := first_move_token_lower
            token_wanted := false }
          opt_prev_incoming_move_token := none })
      mutual_credit
  else
    -- We are the second sender
    TokenChannel.mk (MoveTokenDirection.incoming first_move_token_lower) mutual_credit

/-- Mirrors `TokenChannel::get_cur_move_token`. -/
def get_cur_move_token {Op : Type} (tc : TokenChannel Op) : FriendMoveToken Op :=
  match tc.direction with
  | MoveTokenDirection.incoming friend_move_token => friend_move_token
  | MoveTokenDirection.outgoing outgoing_move_token =>
      outgoing_move_token.outgoing_move_token_request.friend_move_token

/-- Mirrors `TokenChannel::get_last_incoming_move_token`. -/
def get_last_incoming_move_token {Op : Type} (tc : TokenChannel Op) :
    Option (FriendMoveToken Op) :=
  match tc.direction with
  | MoveTokenDirection.incoming friend_move_token => some friend_move_token
  | MoveTokenDirection.outgoing outgoing_move_token =>
      outgoing_move_token.opt_prev_incoming_move_token

/-- Mirrors `TokenChannel::is_outgoing`. -/
def is_outgoing {Op : Type} (tc : TokenChannel Op) : Bool :=
  match tc.direction with
  | MoveTokenDirection.incoming _ => false
  | MoveTokenDirection.outgoing _ => true

/-- Mirrors `TokenChannel::get_outgoing_move_token`. -/
def get_outgoing_move_token {Op : Type} (tc : TokenChannel Op) :
    Option (FriendMoveTokenRequest Op) :=
  match tc.direction with
  | MoveTokenDirection.incoming _ => none
  | MoveTokenDirection.outgoing outgoing_move_token =>
      some outgoing_move_token.outgoing_move_token_request

/-- Type of the operation processor `process_operations_list` (the
`mutual_credit::incoming` module is not under `src/`): it receives the cloned
`MutualCredit` by mutable reference and an operation list, and returns the
(possibly mutated) clone together with the batch result. -/
def ProcessFn (Op Msg Mut Err : Type) : Type :=
  MutualCredit → List Op →
    MutualCredit × Except Err (List (ProcessOperationOutput Msg Mut))

/-- Mirrors the output-collection loop of `outgoing_to_incoming`: push each
present `incoming_message`, wrap every `mc_mutation`, then append the
`SetDirection(Incoming(new))` mutation. -/
def collect_received {Op Msg Mut : Type} (new_move_token : FriendMoveToken Op)
    (outputs : List (ProcessOperationOutput Msg Mut)) : MoveTokenReceived Op Msg Mut :=
  { incoming_messages :=
      outputs.foldl
        (fun acc output =>
          match output.incoming_message with
          | some funds => acc ++ [funds]
          | none => acc) []
    mutations :=
      (outputs.foldl
        (fun acc output => acc ++ output.mc_mutations.map TcMutation.mcMutation) []) ++
      [TcMutation.setDirection (SetDirection.incoming new_move_token)] }

/-- Mirrors `TokenChannel::outgoing_to_incoming`: counter checks, replay of
the operation list on a clone of the mutual credit, stated-balance check
against the (possibly mutated) clone, then dispatch on the replay result. -/
def outgoing_to_incoming {Op Msg Mut Err : Type}
    (proc : ProcessFn Op Msg Mut Err) (mc : MutualCredit)
    (old_move_token new_move_token : FriendMoveToken Op) :
    Except (ReceiveMoveTokenError Err) (ReceiveMoveTokenOutput Op Msg Mut) :=
  -- Verify counters:
  if new_move_token.inconsistency_counter ≠ old_move_token.inconsistency_counter then
    Except.error ReceiveMoveTokenError.invalidInconsistencyCounter
  else
    match checkedAdd U128 old_move_token.move_token_counter 1 with
    | none => Except.error ReceiveMoveTokenError.moveTokenCounterOverflow
    | some expected_move_token_counter =>
      if new_move_token.move_token_counter ≠ expected_move_token_counter then
        Except.error ReceiveMoveTokenError.invalidMoveTokenCounter
      else
        let pr := proc mc new_move_token.operations
        let mutual_credit := pr.1
        let res := pr.2
        -- Verify balance:
        if mutual_credit.state.balance.balance ≠ new_move_token.balance ∨
           mutual_credit.state.balance.local_pending_debt ≠ new_move_token.local_pending_debt ∨
           mutual_credit.state.balance.remote_pending_debt ≠ new_move_token.remote_pending_debt then
          Except.error ReceiveMoveTokenError.invalidStatedBalance
        else
          match res with
          | Except.ok outputs =>
              Except.ok (ReceiveMoveTokenOutput.received
                (collect_received new_move_token outputs))
          | Except.error e =>
              Except.error (ReceiveMoveTokenError.invalidTransaction e)

/-- Mirrors `TokenChannel::simulate_receive_move_token`.  `verify` stands for
`FriendMoveToken::verify` against the remote public key (signature
verification lives in the `crypto` crate). -/
def simulate_receive_move_token {Op Msg Mut Err : Type} [DecidableEq Op]
    (verify : FriendMoveToken Op → List Nat → Bool)
    (proc : ProcessFn Op Msg Mut Err)
    (tc : TokenChannel Op) (new_move_token : FriendMoveToken Op) :
    Except (ReceiveMoveTokenError Err) (ReceiveMoveTokenOutput Op Msg Mut) :=
  match tc.direction with
  | MoveTokenDirection.incoming friend_move_token =>
      if friend_move_token = new_move_token then
        -- Duplicate
        Except.ok ReceiveMoveTokenOutput.duplicate
      else
        -- Inconsistency
        Except.error ReceiveMoveTokenError.chainInconsistency
  | MoveTokenDirection.outgoing outgoing_move_token =>
      -- Verify signature (only here, not in the Incoming branch).
      if ¬ verify new_move_token tc.mutual_credit.state.idents.remote_public_key then
        Except.error ReceiveMoveTokenError.invalidSignature
      else
        let friend_move_token := outgoing_move_token.outgoing_move_token_request.friend_move_token
        if new_move_token.old_token = (get_cur_move_token tc).new_token then
          outgoing_to_incoming proc tc.mutual_credit friend_move_token new_move_token
        else if friend_move_token.old_token = new_move_token.new_token then
          -- We should retransmit our move token message to the remote side.
          Except.ok (ReceiveMoveTokenOutput.retransmitOutgoing friend_move_token)
        else
          Except.error ReceiveMoveTokenError.chainInconsistency

/-- Holds when a mutual credit's balance triple equals the stated triple of a
move-token message (the check of `outgoing_to_incoming`, lines 347-349). -/
def stated_balance_matches {Op : Type} (mc : MutualCredit)
    (t : FriendMoveToken Op) : Prop :=
  mc.state.balance.balance = t.balance ∧
  mc.state.balance.local_pending_debt = t.local_pending_debt ∧
  mc.state.balance.remote_pending_debt = t.remote_pending_debt

instance {Op : Type} (mc : MutualCredit) (t : FriendMoveToken Op) :
    Decidable (stated_balance_matches mc t) := by
  unfold stated_balance_matches; infer_instance

/-- Sample verification function: accepts every signature. -/
def sample_verify : FriendMoveToken Nat → List Nat → Bool := fun _ _ => true

/-- Sample operation processor: leaves the ledger unchanged, no outputs. -/
def sample_proc : ProcessFn Nat Nat Nat Nat := fun mc _ => (mc, Except.ok [])

/-- Sample mutual credit for witnesses. -/
def sample_mc : MutualCredit := MutualCredit.new [0] [1] 0

/-- Sample move token builder for witnesses. -/
def sample_token (oldT newT : List Nat) (inc mtc : Nat) : FriendMoveToken Nat :=
  { operations := []
    old_token := oldT
    inconsistency_counter := inc
    move_token_counter := mtc
    balance := 0
    local_pending_debt := 0
    remote_pending_debt := 0
    rand_nonce := []
    new_token := newT }

/-- Sample hash function for genesis evaluation: the identity on 32-byte keys
(an injective stand-in for SHA-512/256, which keeps the comparison concrete). -/
def sample_sha : List Nat → List Nat := fun l => l

/-- Sample 32-byte public key whose hash (under `sample_sha`) is smaller. -/
def sample_key_a : List Nat := 0 :: List.replicate 31 0

/-- Sample 32-byte public key whose hash (under `sample_sha`) is larger. -/
def sample_key_b : List Nat := 1 :: List.replicate 31 0

/-- Genesis channel as computed by the side holding key A (local = A). -/
def sample_tc_ab : TokenChannel Nat := TokenChannel.new sample_sha sample_key_a sample_key_b

/-- Genesis channel as computed by the side holding key B (local = B). -/
def sample_tc_ba : TokenChannel Nat := TokenChannel.new sample_sha sample_key_b sample_key_a

/-- Modelled from the spec: the incoming-facing operation kinds of
`FriendTcOp` needed here (`crate::types` is not under `src/`); a request
inserts a remote pending request and freezes credit, a response resolves a
local pending request. -/
inductive SpecOp where
  | requestSendFunds (id : Nat) (amount : Nat)
  | responseSendFunds (id : Nat)
  deriving DecidableEq

/-- Modelled from the spec: failure reasons of `ProcessTransListError`
(insufficient credit, unknown pending-request id, requests closed). -/
inductive SpecProcessError where
  | requestsClosed
  | insufficientHeadroom
  | unknownRequestId
  deriving DecidableEq

/-- Modelled from the spec: the `McMutation` kinds produced by the incoming
processor. -/
inductive SpecMcMutation where
  | insertRemotePendingRequest (id amount : Nat)
  | removeLocalPendingRequest (id : Nat)
  | setBalance (b : Int)
  | setLocalPendingDebt (n : Nat)
  | setRemotePendingDebt (n : Nat)
  deriving DecidableEq

/-- Modelled from the spec: apply one incoming operation to the (cloned)
mutual credit.  A request requires the local side open for requests and
headroom under the remote max-debt ceiling (`-balance + remotePendingDebt ≤
remoteMaxDebt` after freezing); a response must reference an existing local
pending request and unfreezes it, moving the balance. -/
def process_operation_spec (mc : MutualCredit) :
    SpecOp →
      Except SpecProcessError (MutualCredit × ProcessOperationOutput Nat SpecMcMutation)
  | SpecOp.requestSendFunds id amount =>
      if mc.state.requests_status.local_status = false then
        Except.error SpecProcessError.requestsClosed
      else if ((mc.state.balance.remote_pending_debt + amount : Int) -
          mc.state.balance.balance > (mc.state.balance.remote_max_debt : Int)) then
        Except.error SpecProcessError.insufficientHeadroom
      else
        let newPending := mc.state.balance.remote_pending_debt + amount
        Except.ok
          ({ state :=
            { mc.state with
              balance := { mc.state.balance with remote_pending_debt := newPending }
              pending_requests :=
              { mc.state.pending_requests with
                pending_remote_requests :=
                  mc.state.pending_requests.pending_remote_requests ++ [(id, amount)] } } },
           { incoming_message := some id
             mc_mutations :=
               [SpecMcMutation.insertRemotePendingRequest id amount,
                SpecMcMutation.setRemotePendingDebt newPending] })
  | SpecOp.responseSendFunds id =>
      match mc.state.pending_requests.pending_local_requests.lookup id with
      | none => Except.error SpecProcessError.unknownRequestId
      | some amount =>
          let newLocalPending := mc.state.balance.local_pending_debt - amount
          let newBalance := mc.state.balance.balance - (amount : Int)
          Except.ok
            ({ state :=
              { mc.state with
                balance :=
                { mc.state.balance with
                  balance := newBalance
                  local_pending_debt := newLocalPending }
                pending_requests :=
                { mc.state.pending_requests with
                  pending_local_requests :=
                    mc.state.pending_requests.pending_local_requests.filter
                      (fun p => p.1 != id) } } },
             { incoming_message := some id
               mc_mutations :=
                 [SpecMcMutation.removeLocalPendingRequest id,
                  SpecMcMutation.setLocalPendingDebt newLocalPending,
                  SpecMcMutation.setBalance newBalance] })

/-- Modelled from the spec: `process_operations_list` replays a received
operation list in order against the cloned mutual credit, stopping at the
first failing operation; earlier operations remain applied to the clone (the
real channel state is untouched by the caller in that case). -/
def process_operations_list_spec :
    MutualCredit → List SpecOp →
      MutualCredit × Except SpecProcessError (List (ProcessOperationOutput Nat SpecMcMutation))
  | mc, [] => (mc, Except.ok [])
  | mc, op :: rest =>
    match process_operation_spec mc op with
    | Except.error e => (mc, Except.error e)
    | Except.ok (mc2, output) =>
      match process_operations_list_spec mc2 rest with
      | (mc3, Except.ok outputs) => (mc3, Except.ok (output :: outputs))
      | (mc3, Except.error e) => (mc3, Except.error e)

/-- Sample verification function over the modelled operation type. -/
def sample_verify_spec : FriendMoveToken SpecOp → List Nat → Bool := fun _ _ => true

/-- Concrete mutual credit for the partial-application scenario: requests
open, generous ceilings, empty pending sets. -/
def c10_mc : MutualCredit :=
  { state :=
    { idents :=
      { local_public_key := [0]
        remote_public_key := [1] }
      balance :=
      { balance := 0
        local_max_debt := 100
        remote_max_debt := 100
        local_pending_debt := 0
        remote_pending_debt := 0 }
      pending_requests :=
      { pending_local_requests := []
        pending_remote_requests := [] }
      requests_status :=
      { local_status := true
        remote_status := true } } }

/-- Concrete pending outgoing move token for the partial-application
scenario. -/
def c10_fmt : FriendMoveToken SpecOp :=
  { operations := []
    old_token := [3]
    inconsistency_counter := 0
    move_token_counter := 0
    balance := 0
    local_pending_debt := 0
    remote_pending_debt := 0
    rand_nonce := []
    new_token := [5] }

/-- Concrete Outgoing channel for the partial-application scenario. -/
def c10_tc : TokenChannel SpecOp :=
  TokenChannel.mk
    (MoveTokenDirection.outgoing
      { outgoing_move_token_request :=
        { friend_move_token := c10_fmt
          token_wanted := false }
        opt_prev_incoming_move_token := none })
    c10_mc

/-- Concrete received move token whose operation list first freezes credit
(a request) and then fails (a response to an unknown id), while stating the
pre-replay balance triple. -/
def c10_new : FriendMoveToken SpecOp :=
  { operations := [SpecOp.requestSendFunds 7 5, SpecOp.responseSendFunds 9]
    old_token := [5]
    inconsistency_counter := 0
    move_token_counter := 1
    balance := 0
    local_pending_debt := 0
    remote_pending_debt := 0
    rand_nonce := []
    new_token := [9] }

/-- Result of replaying the scenario's operation list on the cloned mutual
credit. -/
def c10_replay :
    MutualCredit ×
      Except SpecProcessError (List (ProcessOperationOutput Nat SpecMcMutation)) :=
  process_operations_list_spec c10_mc c10_new.operations

end Funder

namespace CreditCalc

/-!
Embedding of `src/src/legacy/networker/messenger/credit_calc.rs`.  The
`mem::size_of` constants of `crypto`/`proto` types are fixed byte counts; the
claims proved below hold for any non-negative values of these constants.
`u32` arithmetic is checked against `U32`, `u64` arithmetic against `U64`.
-/

/-- Byte size of `PublicKey` (ed25519, 32 bytes). -/
def publicKeyLen : Nat := 32

/-- Byte size of `Signature` (ed25519, 64 bytes). -/
def signatureLen : Nat := 64

/-- Byte size of `Uid` (128-bit unique id). -/
def uidLen : Nat := 16

/-- Byte size of `RandValue` (128-bit nonce). -/
def randValueLen : Nat := 16

/-- Byte size of `u64`. -/
def u64Len : Nat := 8

/-- Byte size of `u32`. -/
def u32Len : Nat := 4

/-- Byte size of `u16`. -/
def u16Len : Nat := 2

/-- Modelled from the spec: byte size of `NetworkerSendPrice`
(`LinearSendPrice<u32>`: base and multiplier, 8 bytes; the `proto` crate is
not under `src/`). -/
def networkerSendPriceLen : Nat := 8

/-- Modelled from the spec: byte size of `NetworkerFreezeLink` (a fixed
constant of the `proto` crate, not under `src/`). -/
def networkerFreezeLinkLen : Nat := 16

/-- Modelled from the spec: byte size of `NeighborRouteLink` (a fixed
constant of the `proto` crate, not under `src/`). -/
def neighborRouteLinkLen : Nat := 48

/-- Mirrors `usize_to_u32` of `utils::int_convert`. -/
def usize_to_u32 (n : Nat) : Option Nat :=
  if n < U32 then some n else none

/-- Modelled from the spec: `NetworkerSendPrice` is a linear price proposal
with `u32` base and multiplier (`proto` crate, not under `src/`). -/
structure NetworkerSendPrice where
  base : Nat
  multiplier : Nat
  deriving DecidableEq

/-- Mirrors `PaymentProposalPair` (request and response price proposals). -/
structure PaymentProposalPair where
  request : NetworkerSendPrice
  response : NetworkerSendPrice
  deriving DecidableEq

/-- Mirrors `PaymentProposals`. -/
structure PaymentProposals where
  middle_props : List PaymentProposalPair
  dest_response_proposal : NetworkerSendPrice
  deriving DecidableEq

/-- Modelled from the spec: `calc_cost(length) = base + multiplier * length`,
every arithmetic step overflow-checked in `u64` (the implementation lives in
the `proto` crate, not under `src/`). -/
def NetworkerSendPrice.calc_cost (p : NetworkerSendPrice) (length : Nat) : Option Nat := do
  let m ← checkedMul U64 p.multiplier length
  checkedAdd U64 p.base m

/-- Mirrors `calc_request_len`: overhead (`Uid`, `u32`, `u64`), route bytes
(two keys, `route_len - 2` route links, two send prices), content, and
`route_len - nodes_to_dest` freeze links, all `u32`-checked. -/
def calc_request_len (request_content_len route_len nodes_to_dest : Nat) : Option Nat := do
  let pk2 ← checkedMul U32 publicKeyLen 2
  let rl2 ← checkedSub route_len 2
  let links ← checkedMul U32 rl2 neighborRouteLinkLen
  let t2 ← checkedAdd U32 pk2 links
  let nsp2 ← checkedMul U32 networkerSendPriceLen 2
  let route_bytes_count ← checkedAdd U32 t2 nsp2
  let rn ← checkedSub route_len nodes_to_dest
  let freeze_links_len ← checkedMul U32 rn networkerFreezeLinkLen
  let ro1 ← checkedAdd U32 uidLen u32Len
  let request_overhead ← checkedAdd U32 ro1 u64Len
  let s1 ← checkedAdd U32 request_overhead route_bytes_count
  let s2 ← checkedAdd U32 s1 request_content_len
  checkedAdd U32 s2 freeze_links_len

/-- Mirrors `calc_response_len`: `Uid`, `RandValue`, `u64`, content,
`Signature`, `u32`-checked. -/
def calc_response_len (response_content_len : Nat) : Option Nat := do
  let a ← checkedAdd U32 uidLen randValueLen
  let b ← checkedAdd U32 a u64Len
  let c ← checkedAdd U32 b response_content_len
  checkedAdd U32 c signatureLen

/-- Mirrors `calc_failure_len`: `Uid`, `u16`, and a `RandValue`+`Signature`
block per node to the reporting node, `u32`-checked. -/
def calc_failure_len (nodes_to_reporting : Nat) : Option Nat := do
  let rand_nonce_sig_len ← checkedAdd U32 randValueLen signatureLen
  let blocks ← checkedMul U32 rand_nonce_sig_len nodes_to_reporting
  let a ← checkedAdd U32 uidLen u16Len
  checkedAdd U32 a blocks

/-- Mirrors the `sum_resp_multiplier` accumulation loop of
`credits_on_success_dest` (`u64`-checked fold over all middle proposals). -/
def sum_resp_multiplier : List PaymentProposalPair → Nat → Option Nat
  | [], acc => some acc
  | middle_prop :: rest, acc =>
    match checkedAdd U64 acc middle_prop.response.multiplier with
    | none => none
    | some acc2 => sum_resp_multiplier rest acc2

/-- Mirrors `credits_on_success_dest`: `processing_fee + destCost(maxRespLen)
+ (maxRespLen - respLen) * sum of all response multipliers`. -/
def credits_on_success_dest (payment_proposals : PaymentProposals)
    (processing_fee_proposal response_content_len max_response_content_len : Nat) :
    Option Nat := do
  let response_len ← calc_response_len response_content_len
  let max_response_len ← calc_response_len max_response_content_len
  let s ← sum_resp_multiplier payment_proposals.middle_props 0
  let dest_cost ← payment_proposals.dest_response_proposal.calc_cost max_response_len
  let a ← checkedAdd U64 processing_fee_proposal dest_cost
  let diff ← checkedSub max_response_len response_len
  let slack ← checkedMul U64 diff s
  checkedAdd U64 a slack

/-- Indexed enumeration of a proposal list starting at `n` (the embedding of
the source's `for i in a..b` loops with indexing `middle_props[i]`:
`enumFromP a (l.drop a)` walks exactly the pairs `(i, l[i])` for `i ∈ a..b`). -/
def enumFromP : Nat → List PaymentProposalPair → List (Nat × PaymentProposalPair)
  | _, [] => []
  | n, p :: rest => (n, p) :: enumFromP (n + 1) rest

/-- Mirrors the per-hop loop body of `credits_on_success` over pairs
`(i, middle_props[i])`: request cost at the hop's request length plus response
cost at `response_len + max_failure_len`, `u64`-checked accumulation. -/
def success_loop (request_content_len response_content_len middle_props_len : Nat) :
    List (Nat × PaymentProposalPair) → Nat → Option Nat
  | [], sum_credits => some sum_credits
  | (i, middle_prop) :: rest, sum_credits => do
    let li ← checkedSub middle_props_len i
    let request_len ← calc_request_len request_content_len middle_props_len li
    let response_len ← calc_response_len response_content_len
    let max_failure_len ← calc_failure_len li
    let c1 ← middle_prop.request.calc_cost request_len
    let rlen ← checkedAdd U32 response_len max_failure_len
    let c2 ← middle_prop.response.calc_cost rlen
    let credits_earned ← checkedAdd U64 c1 c2
    let sum2 ← checkedAdd U64 sum_credits credits_earned
    success_loop request_content_len response_content_len middle_props_len rest sum2

/-- Mirrors `credits_on_success`: the destination payout plus the per-hop
earnings for hops `middle_props_len - nodes_to_dest .. middle_props_len`. -/
def credits_on_success (payment_proposals : PaymentProposals)
    (processing_fee_proposal request_content_len response_content_len
      max_response_content_len nodes_to_dest : Nat) : Option Nat := do
  let middle_props_len ← usize_to_u32 payment_proposals.middle_props.length
  let sum0 ← credits_on_success_dest payment_proposals processing_fee_proposal
    response_content_len max_response_content_len
  let start ← checkedSub middle_props_len nodes_to_dest
  success_loop request_content_len response_content_len middle_props_len
    (enumFromP start (payment_proposals.middle_props.drop start)) sum0

/-- Mirrors the per-hop loop body of `credits_on_failure` over pairs
`(i, middle_props[i])`: request cost plus response cost at
`failure_len(end_index - i)`, `u64`-checked accumulation. -/
def failure_loop (request_content_len middle_props_len end_index : Nat) :
    List (Nat × PaymentProposalPair) → Nat → Option Nat
  | [], sum_credits => some sum_credits
  | (i, middle_prop) :: rest, sum_credits => do
    let li ← checkedSub middle_props_len i
    let request_len ← calc_request_len request_content_len middle_props_len li
    let ei ← checkedSub end_index i
    let failure_len ← calc_failure_len ei
    let c1 ← middle_prop.request.calc_cost request_len
    let c2 ← middle_prop.response.calc_cost failure_len
    let credits_earned ← checkedAdd U64 c1 c2
    let sum2 ← checkedAdd U64 sum_credits credits_earned
    failure_loop request_content_len middle_props_len end_index rest sum2

/-- Default proposal pair for the (never reached in defined paths) out-of-range
index access `middle_props[end_index]`. -/
def defaultPair : PaymentProposalPair :=
  { request := { base := 0, multiplier := 0 }
    response := { base := 0, multiplier := 0 } }

/-- Mirrors `credits_on_failure`: loop over hops
`end_index - nodes_to_reporting .. end_index` (`end_index = middle_props_len -
reporting_to_dest`), plus the reporting node's response cost at
`failure_len(0)`.  The source's `assert!(reporting_to_dest > 1)` (a panic) is
modelled as `none` on violation. -/
def credits_on_failure (payment_proposals : PaymentProposals)
    (request_content_len nodes_to_reporting reporting_to_dest : Nat) : Option Nat :=
  if 1 < reporting_to_dest then do
    let middle_props_len ← usize_to_u32 payment_proposals.middle_props.length
    let end_index ← checkedSub middle_props_len reporting_to_dest
    let start_index ← checkedSub end_index nodes_to_reporting
    let s ← failure_loop request_content_len middle_props_len end_index
      (enumFromP start_index
        ((payment_proposals.middle_props.drop start_index).take (end_index - start_index)))
      0
    let failure_len_reporting ← calc_failure_len 0
    let reporting_node_credits ←
      (payment_proposals.middle_props.getD end_index defaultPair).response.calc_cost
        failure_len_reporting
    checkedAdd U64 s reporting_node_credits
  else none

/-- Mirrors `credits_to_freeze`: `credits_on_success` at
`response_content_len = 0`. -/
def credits_to_freeze (payment_proposals : PaymentProposals)
    (processing_fee_proposal request_content_len max_response_content_len
      nodes_to_dest : Nat) : Option Nat :=
  credits_on_success payment_proposals processing_fee_proposal request_content_len 0
    max_response_content_len nodes_to_dest

/-- Unchecked value of `calc_response_len`. -/
def calc_response_len_pure (response_content_len : Nat) : Nat :=
  uidLen + randValueLen + u64Len + response_content_len + signatureLen

/-- Unchecked value of `calc_failure_len`. -/
def calc_failure_len_pure (nodes_to_reporting : Nat) : Nat :=
  uidLen + u16Len + (randValueLen + signatureLen) * nodes_to_reporting

/-- Unchecked value of `calc_request_len`. -/
def calc_request_len_pure (request_content_len route_len nodes_to_dest : Nat) : Nat :=
  uidLen + u32Len + u64Len +
    (publicKeyLen * 2 + (route_len - 2) * neighborRouteLinkLen +
      networkerSendPriceLen * 2) +
    request_content_len + (route_len - nodes_to_dest) * networkerFreezeLinkLen

/-- Unchecked value of `calc_cost`. -/
def calc_cost_pure (p : NetworkerSendPrice) (length : Nat) : Nat :=
  p.base + p.multiplier * length

/-- Unchecked per-hop term of the `credits_on_success` loop. -/
def succ_term_pure (request_content_len response_content_len middle_props_len : Nat)
    (e : Nat × PaymentProposalPair) : Nat :=
  calc_cost_pure e.2.request
      (calc_request_len_pure request_content_len middle_props_len
        (middle_props_len - e.1)) +
    calc_cost_pure e.2.response
      (calc_response_len_pure response_content_len +
        calc_failure_len_pure (middle_props_len - e.1))

/-- Unchecked per-hop term of the `credits_on_failure` loop. -/
def fail_term_pure (request_content_len middle_props_len end_index : Nat)
    (e : Nat × PaymentProposalPair) : Nat :=
  calc_cost_pure e.2.request
      (calc_request_len_pure request_content_len middle_props_len
        (middle_props_len - e.1)) +
    calc_cost_pure e.2.response (calc_failure_len_pure (end_index - e.1))

/-- Response multiplier of a proposal pair. -/
def respMult (p : PaymentProposalPair) : Nat := p.response.multiplier

/-- Sample payment proposals (five middle hops) for witnesses. -/
def sample_props : PaymentProposals :=
  { middle_props :=
      [ { request := ⟨1, 2⟩, response := ⟨4, 3⟩ },
        { request := ⟨2, 3⟩, response := ⟨1, 5⟩ },
        { request := ⟨3, 2⟩, response := ⟨2, 5⟩ },
        { request := ⟨6, 7⟩, response := ⟨9, 6⟩ },
        { request := ⟨3, 4⟩, response := ⟨3, 4⟩ } ]
    dest_response_proposal := ⟨2, 3⟩ }

/-- All-zero payment proposals (two middle hops): every base and multiplier
is zero, so every payout is zero. -/
def zero_props : PaymentProposals :=
  { middle_props :=
      [ { request := ⟨0, 0⟩, response := ⟨0, 0⟩ },
        { request := ⟨0, 0⟩, response := ⟨0, 0⟩ } ]
    dest_response_proposal := ⟨0, 0⟩ }

end CreditCalc

theorem checkedAdd_some {m a b c : Nat} (h : checkedAdd m a b = some c) :
    c = a + b ∧ a + b < m := by
  unfold checkedAdd at h
  split at h
  · exact ⟨(Option.some.injEq _ _).mp h.symm, by assumption⟩
  · exact absurd h (by simp)

theorem checkedSub_some {a b c : Nat} (h : checkedSub a b = some c) :
    c = a - b ∧ b ≤ a := by
  unfold checkedSub at h
  split at h
  · exact ⟨(Option.some.injEq _ _).mp h.symm, by assumption⟩
  · exact absurd h (by simp)

theorem checkedMul_some {m a b c : Nat} (h : checkedMul m a b = some c) :
    c = a * b ∧ a * b < m := by
  unfold checkedMul at h
  split at h
  · exact ⟨(Option.some.injEq _ _).mp h.symm, by assumption⟩
  · exact absurd h (by simp)

theorem checkedAdd_eq_some {m a b c : Nat} :
    checkedAdd m a b = some c ↔ a + b < m ∧ c = a + b := by
  unfold checkedAdd
  split <;> simp_all [eq_comm]

theorem checkedSub_eq_some {a b c : Nat} :
    checkedSub a b = some c ↔ b ≤ a ∧ c = a - b := by
  unfold checkedSub
  split <;> simp_all [eq_comm]

theorem checkedMul_eq_some {m a b c : Nat} :
    checkedMul m a b = some c ↔ a * b < m ∧ c = a * b := by
  unfold checkedMul
  split <;> simp_all [eq_comm]

theorem CreditCalc.calc_response_len_some {rcl v : Nat}
    (h : CreditCalc.calc_response_len rcl = some v) :
    v = CreditCalc.calc_response_len_pure rcl := by
  simp only [CreditCalc.calc_response_len, bind, Option.bind_eq_some,
    checkedAdd_eq_some] at h
  obtain ⟨a, ⟨_, ha⟩, b, ⟨_, hb⟩, c, ⟨_, hc⟩, _, hv⟩ := h
  subst ha hb hc hv
  rfl

theorem CreditCalc.calc_failure_len_some {ntr v : Nat}
    (h : CreditCalc.calc_failure_len ntr = some v) :
    v = CreditCalc.calc_failure_len_pure ntr := by
  simp only [CreditCalc.calc_failure_len, bind, Option.bind_eq_some,
    checkedAdd_eq_some, checkedMul_eq_some] at h
  obtain ⟨a, ⟨_, ha⟩, b, ⟨_, hb⟩, c, ⟨_, hc⟩, _, hv⟩ := h
  subst ha hb hc hv
  rfl

theorem CreditCalc.calc_request_len_some {rc L n v : Nat}
    (h : CreditCalc.calc_request_len rc L n = some v) :
    v = CreditCalc.calc_request_len_pure rc L n := by
  simp only [CreditCalc.calc_request_len, bind, Option.bind_eq_some,
    checkedAdd_eq_some, checkedMul_eq_some, checkedSub_eq_some] at h
  obtain ⟨pk2, ⟨_, h1⟩, rl2, ⟨_, h2⟩, links, ⟨_, h3⟩, t2, ⟨_, h4⟩, nsp2, ⟨_, h5⟩,
    rbc, ⟨_, h6⟩, rn, ⟨_, h7⟩, fll, ⟨_, h8⟩, ro1, ⟨_, h9⟩, ro, ⟨_, h10⟩,
    s1, ⟨_, h11⟩, s2, ⟨_, h12⟩, _, hv⟩ := h
  subst h1 h2 h3 h4 h5 h6 h7 h8 h9 h10 h11 h12 hv
  unfold CreditCalc.calc_request_len_pure
  ring

theorem CreditCalc.calc_cost_some {p : CreditCalc.NetworkerSendPrice} {len v : Nat}
    (h : p.calc_cost len = some v) : v = CreditCalc.calc_cost_pure p len := by
  simp only [CreditCalc.NetworkerSendPrice.calc_cost, bind, Option.bind_eq_some,
    checkedAdd_eq_some, checkedMul_eq_some] at h
  obtain ⟨m, ⟨_, hm⟩, _, hv⟩ := h
  subst hm hv
  rfl

theorem CreditCalc.sum_resp_multiplier_some :
    ∀ (l : List CreditCalc.PaymentProposalPair) (acc v : Nat),
      CreditCalc.sum_resp_multiplier l acc = some v →
      v = acc + (l.map CreditCalc.respMult).sum
  | [], acc, v, h => by
      simp only [CreditCalc.sum_resp_multiplier] at h
      simp [((Option.some.injEq _ _).mp h).symm]
  | p :: rest, acc, v, h => by
      simp only [CreditCalc.sum_resp_multiplier] at h
      cases ha : checkedAdd U64 acc p.response.multiplier with
      | none => rw [ha] at h; exact absurd h (by simp)
      | some acc2 =>
          rw [ha] at h
          have h2 := CreditCalc.sum_resp_multiplier_some rest acc2 v h
          obtain ⟨hval, _⟩ := checkedAdd_some ha
          subst hval h2
          simp [CreditCalc.respMult]
          ring

theorem CreditCalc.usize_to_u32_some {n v : Nat}
    (h : CreditCalc.usize_to_u32 n = some v) : v = n := by
  unfold CreditCalc.usize_to_u32 at h
  split at h
  · exact ((Option.some.injEq _ _).mp h).symm
  · exact absurd h (by simp)

theorem CreditCalc.credits_on_success_dest_some
    {pp : CreditCalc.PaymentProposals} {fee rcl mrcl v : Nat}
    (h : CreditCalc.credits_on_success_dest pp fee rcl mrcl = some v) :
    rcl ≤ mrcl ∧
    v = fee +
      CreditCalc.calc_cost_pure pp.dest_response_proposal
        (CreditCalc.calc_response_len_pure mrcl) +
      (mrcl - rcl) * (pp.middle_props.map CreditCalc.respMult).sum := by
  simp only [CreditCalc.credits_on_success_dest, bind, Option.bind_eq_some] at h
  obtain ⟨rl, hrl, mrl, hmrl, s, hs, dc, hdc, a, ha, diff, hdiff, slack, hslack, hv⟩ := h
  have hrl2 := CreditCalc.calc_response_len_some hrl
  have hmrl2 := CreditCalc.calc_response_len_some hmrl
  have hs2 := CreditCalc.sum_resp_multiplier_some _ _ _ hs
  have hdc2 := CreditCalc.calc_cost_some hdc
  obtain ⟨hae, _⟩ := checkedAdd_some ha
  obtain ⟨hde, hle⟩ := checkedSub_some hdiff
  obtain ⟨hme, _⟩ := checkedMul_some hslack
  obtain ⟨hve, _⟩ := checkedAdd_some hv
  subst hrl2 hmrl2 hs2 hdc2 hae hde hme hve
  have hrm : rcl ≤ mrcl := by
    unfold CreditCalc.calc_response_len_pure at hle
    omega
  have hdd : CreditCalc.calc_response_len_pure mrcl -
      CreditCalc.calc_response_len_pure rcl = mrcl - rcl := by
    unfold CreditCalc.calc_response_len_pure
    omega
  rw [hdd]
  exact ⟨hrm, by ring⟩

theorem CreditCalc.success_loop_some :
    ∀ (hops : List (Nat × CreditCalc.PaymentProposalPair)) (rq rc L acc v : Nat),
      CreditCalc.success_loop rq rc L hops acc = some v →
      v = acc + (hops.map (CreditCalc.succ_term_pure rq rc L)).sum
  | [], rq, rc, L, acc, v, h => by
      simp only [CreditCalc.success_loop] at h
      simp [((Option.some.injEq _ _).mp h).symm]
  | (i, mp) :: rest, rq, rc, L, acc, v, h => by
      simp only [CreditCalc.success_loop, bind, Option.bind_eq_some] at h
      obtain ⟨li, hli, rqlen, hrqlen, rlen0, hrlen0, mfl, hmfl, c1, hc1, rlen, hrlen,
        c2, hc2, ce, hce, sum2, hsum2, hrec⟩ := h
      have hrec2 := CreditCalc.success_loop_some rest rq rc L sum2 v hrec
      obtain ⟨hlie, _⟩ := checkedSub_some hli
      have hrq2 := CreditCalc.calc_request_len_some hrqlen
      have hr02 := CreditCalc.calc_response_len_some hrlen0
      have hmfl2 := CreditCalc.calc_failure_len_some hmfl
      have hc12 := CreditCalc.calc_cost_some hc1
      obtain ⟨hrlene, _⟩ := checkedAdd_some hrlen
      have hc22 := CreditCalc.calc_cost_some hc2
      obtain ⟨hcee, _⟩ := checkedAdd_some hce
      obtain ⟨hsum2e, _⟩ := checkedAdd_some hsum2
      subst hlie hrq2 hr02 hmfl2 hc12 hrlene hc22 hcee hsum2e hrec2
      simp only [List.map_cons, List.sum_cons, CreditCalc.succ_term_pure]
      ring

theorem CreditCalc.failure_loop_some :
    ∀ (hops : List (Nat × CreditCalc.PaymentProposalPair)) (rq L ei acc v : Nat),
      CreditCalc.failure_loop rq L ei hops acc = some v →
      v = acc + (hops.map (CreditCalc.fail_term_pure rq L ei)).sum
  | [], rq, L, ei, acc, v, h => by
      simp only [CreditCalc.failure_loop] at h
      simp [((Option.some.injEq _ _).mp h).symm]
  | (i, mp) :: rest, rq, L, ei, acc, v, h => by
      simp only [CreditCalc.failure_loop, bind, Option.bind_eq_some] at h
      obtain ⟨li, hli, rqlen, hrqlen, eidx, heidx, flen, hflen, c1, hc1,
        c2, hc2, ce, hce, sum2, hsum2, hrec⟩ := h
      have hrec2 := CreditCalc.failure_loop_some rest rq L ei sum2 v hrec
      obtain ⟨hlie, _⟩ := checkedSub_some hli
      have hrq2 := CreditCalc.calc_request_len_some hrqlen
      obtain ⟨heidxe, _⟩ := checkedSub_some heidx
      have hflen2 := CreditCalc.calc_failure_len_some hflen
      have hc12 := CreditCalc.calc_cost_some hc1
      have hc22 := CreditCalc.calc_cost_some hc2
      obtain ⟨hcee, _⟩ := checkedAdd_some hce
      obtain ⟨hsum2e, _⟩ := checkedAdd_some hsum2
      subst hlie hrq2 heidxe hflen2 hc12 hc22 hcee hsum2e hrec2
      simp only [List.map_cons, List.sum_cons, CreditCalc.fail_term_pure]
      ring

theorem CreditCalc.credits_on_success_some
    {pp : CreditCalc.PaymentProposals} {fee rq rc mrc n v : Nat}
    (h : CreditCalc.credits_on_success pp fee rq rc mrc n = some v) :
    rc ≤ mrc ∧ n ≤ pp.middle_props.length ∧
    v = fee +
      CreditCalc.calc_cost_pure pp.dest_response_proposal
        (CreditCalc.calc_response_len_pure mrc) +
      (mrc - rc) * (pp.middle_props.map CreditCalc.respMult).sum +
      ((CreditCalc.enumFromP (pp.middle_props.length - n)
          (pp.middle_props.drop (pp.middle_props.length - n))).map
        (CreditCalc.succ_term_pure rq rc pp.middle_props.length)).sum := by
  simp only [CreditCalc.credits_on_success, bind, Option.bind_eq_some] at h
  obtain ⟨L, hL, sum0, hsum0, start, hstart, hloop⟩ := h
  have hLe := CreditCalc.usize_to_u32_some hL
  subst hLe
  obtain ⟨hrm, hsum0e⟩ := CreditCalc.credits_on_success_dest_some hsum0
  obtain ⟨hstarte, hnle⟩ := checkedSub_some hstart
  subst hstarte
  have hv := CreditCalc.success_loop_some _ _ _ _ _ _ hloop
  subst hv hsum0e
  exact ⟨hrm, hnle, by ring⟩

theorem CreditCalc.credits_on_failure_some
    {pp : CreditCalc.PaymentProposals} {rq ntr rtd v : Nat}
    (h : CreditCalc.credits_on_failure pp rq ntr rtd = some v) :
    1 < rtd ∧ rtd ≤ pp.middle_props.length ∧
    ntr ≤ pp.middle_props.length - rtd ∧
    v = ((CreditCalc.enumFromP (pp.middle_props.length - rtd - ntr)
          ((pp.middle_props.drop (pp.middle_props.length - rtd - ntr)).take ntr)).map
        (CreditCalc.fail_term_pure rq pp.middle_props.length
          (pp.middle_props.length - rtd))).sum +
      CreditCalc.calc_cost_pure
        (pp.middle_props.getD (pp.middle_props.length - rtd)
          CreditCalc.defaultPair).response
        (CreditCalc.calc_failure_len_pure 0) := by
  unfold CreditCalc.credits_on_failure at h
  split at h
  case isFalse => exact absurd h (by simp)
  case isTrue h1 =>
    simp only [bind, Option.bind_eq_some] at h
    obtain ⟨L, hL, ei, hei, si, hsi, s, hloop, fl0, hfl0, rc, hrc, hv⟩ := h
    have hLe := CreditCalc.usize_to_u32_some hL
    subst hLe
    obtain ⟨heie, hrtdle⟩ := checkedSub_some hei
    obtain ⟨hsie, hntrle⟩ := checkedSub_some hsi
    subst heie hsie
    have hs := CreditCalc.failure_loop_some _ _ _ _ _ _ hloop
    have hfl02 := CreditCalc.calc_failure_len_some hfl0
    have hrc2 := CreditCalc.calc_cost_some hrc
    obtain ⟨hve, _⟩ := checkedAdd_some hv
    have htake : pp.middle_props.length - rtd - (pp.middle_props.length - rtd - ntr) =
        ntr := by omega
    rw [htake] at hs
    subst hs hfl02 hrc2 hve
    exact ⟨h1, hrtdle, hntrle, by ring⟩

theorem CreditCalc.enumFromP_map_snd :
    ∀ (n : Nat) (l : List CreditCalc.PaymentProposalPair),
      (CreditCalc.enumFromP n l).map Prod.snd = l
  | _, [] => rfl
  | n, p :: rest => by
      simp only [CreditCalc.enumFromP, List.map_cons]
      rw [CreditCalc.enumFromP_map_snd (n + 1) rest]

theorem CreditCalc.enumFromP_append :
    ∀ (n : Nat) (l1 l2 : List CreditCalc.PaymentProposalPair),
      CreditCalc.enumFromP n (l1 ++ l2) =
        CreditCalc.enumFromP n l1 ++ CreditCalc.enumFromP (n + l1.length) l2
  | n, [], l2 => by simp [CreditCalc.enumFromP]
  | n, p :: rest, l2 => by
      simp only [List.cons_append, CreditCalc.enumFromP, List.length_cons]
      rw [show rest.append l2 = rest ++ l2 from rfl,
        CreditCalc.enumFromP_append (n + 1) rest l2]
      congr 3
      omega

theorem sum_map_le_pointwise {α : Type} :
    ∀ (l : List α) (f g : α → Nat), (∀ x ∈ l, f x ≤ g x) →
      (l.map f).sum ≤ (l.map g).sum
  | [], _, _, _ => le_refl 0
  | x :: rest, f, g, h => by
      simp only [List.map_cons, List.sum_cons]
      exact Nat.add_le_add (h x (by simp))
        (sum_map_le_pointwise rest f g (fun y hy => h y (by simp [hy])))

theorem sum_map_drop_le {α : Type} (l : List α) (f : α → Nat) (k : Nat) :
    ((l.drop k).map f).sum ≤ (l.map f).sum := by
  conv_rhs => rw [← List.take_append_drop k l]
  rw [List.map_append, List.sum_append]
  exact Nat.le_add_left _ _

theorem drop_getD_cons {α : Type} (d : α) :
    ∀ (l : List α) (k : Nat), k < l.length →
      l.drop k = l.getD k d :: l.drop (k + 1)
  | [], k, h => absurd h (by simp)
  | x :: rest, 0, _ => rfl
  | x :: rest, k + 1, h => by
      simp only [List.drop_succ_cons, List.getD]
      have := drop_getD_cons d rest k (by simpa using h)
      simpa using this

theorem CreditCalc.succ_term_shift (rq rc dd L : Nat)
    (e : Nat × CreditCalc.PaymentProposalPair) :
    CreditCalc.succ_term_pure rq (rc + dd) L e =
      CreditCalc.succ_term_pure rq rc L e + e.2.response.multiplier * dd := by
  unfold CreditCalc.succ_term_pure CreditCalc.calc_cost_pure
    CreditCalc.calc_response_len_pure
  ring

theorem CreditCalc.sum_succ_shift (rq rc dd L : Nat) :
    ∀ (hops : List (Nat × CreditCalc.PaymentProposalPair)),
      (hops.map (CreditCalc.succ_term_pure rq (rc + dd) L)).sum =
        (hops.map (CreditCalc.succ_term_pure rq rc L)).sum +
          dd * (hops.map (fun e => e.2.response.multiplier)).sum
  | [] => by simp
  | e :: rest => by
      simp only [List.map_cons, List.sum_cons]
      rw [CreditCalc.sum_succ_shift rq rc dd L rest, CreditCalc.succ_term_shift]
      ring

theorem CreditCalc.enumFromP_mult_sum :
    ∀ (n : Nat) (l : List CreditCalc.PaymentProposalPair),
      ((CreditCalc.enumFromP n l).map (fun e => e.2.response.multiplier)).sum =
        (l.map CreditCalc.respMult).sum
  | _, [] => rfl
  | n, p :: rest => by
      simp only [CreditCalc.enumFromP, List.map_cons, List.sum_cons,
        CreditCalc.respMult]
      rw [CreditCalc.enumFromP_mult_sum (n + 1) rest]

theorem CreditCalc.calc_cost_pure_mono (p : CreditCalc.NetworkerSendPrice)
    {x y : Nat} (h : x ≤ y) :
    CreditCalc.calc_cost_pure p x ≤ CreditCalc.calc_cost_pure p y :=
  Nat.add_le_add_left (Nat.mul_le_mul_left _ h) _

theorem CreditCalc.calc_failure_len_pure_mono {x y : Nat} (h : x ≤ y) :
    CreditCalc.calc_failure_len_pure x ≤ CreditCalc.calc_failure_len_pure y :=
  Nat.add_le_add_left (Nat.mul_le_mul_left _ h) _

theorem CreditCalc.fail_term_le_succ_term (rq rc L ei : Nat) (hei : ei ≤ L)
    (e : Nat × CreditCalc.PaymentProposalPair) :
    CreditCalc.fail_term_pure rq L ei e ≤ CreditCalc.succ_term_pure rq rc L e := by
  unfold CreditCalc.fail_term_pure CreditCalc.succ_term_pure
  refine Nat.add_le_add_left (CreditCalc.calc_cost_pure_mono _ ?_) _
  calc CreditCalc.calc_failure_len_pure (ei - e.1)
      ≤ CreditCalc.calc_failure_len_pure (L - e.1) :=
        CreditCalc.calc_failure_len_pure_mono (Nat.sub_le_sub_right hei e.1)
    _ ≤ CreditCalc.calc_response_len_pure rc +
        CreditCalc.calc_failure_len_pure (L - e.1) := Nat.le_add_left _ _

theorem CreditCalc.success_value_antitone (pp : CreditCalc.PaymentProposals)
    (fee rq mrc k a b : Nat) (hab : a ≤ b) (hbm : b ≤ mrc) :
    fee +
      CreditCalc.calc_cost_pure pp.dest_response_proposal
        (CreditCalc.calc_response_len_pure mrc) +
      (mrc - b) * (pp.middle_props.map CreditCalc.respMult).sum +
      ((CreditCalc.enumFromP k (pp.middle_props.drop k)).map
        (CreditCalc.succ_term_pure rq b pp.middle_props.length)).sum ≤
    fee +
      CreditCalc.calc_cost_pure pp.dest_response_proposal
        (CreditCalc.calc_response_len_pure mrc) +
      (mrc - a) * (pp.middle_props.map CreditCalc.respMult).sum +
      ((CreditCalc.enumFromP k (pp.middle_props.drop k)).map
        (CreditCalc.succ_term_pure rq a pp.middle_props.length)).sum := by
  have hb : b = a + (b - a) := by omega
  rw [hb, CreditCalc.sum_succ_shift]
  have hMS : ((CreditCalc.enumFromP k (pp.middle_props.drop k)).map
      (fun e => e.2.response.multiplier)).sum ≤
      (pp.middle_props.map CreditCalc.respMult).sum := by
    rw [CreditCalc.enumFromP_mult_sum]
    exact sum_map_drop_le pp.middle_props CreditCalc.respMult k
  have hsplit : (mrc - a) * (pp.middle_props.map CreditCalc.respMult).sum =
      (mrc - (a + (b - a))) * (pp.middle_props.map CreditCalc.respMult).sum +
        (b - a) * (pp.middle_props.map CreditCalc.respMult).sum := by
    rw [← Nat.add_mul]
    congr 1
    omega
  rw [hsplit]
  have hdm : (b - a) * ((CreditCalc.enumFromP k (pp.middle_props.drop k)).map
      (fun e => e.2.response.multiplier)).sum ≤
      (b - a) * (pp.middle_props.map CreditCalc.respMult).sum :=
    Nat.mul_le_mul_left _ hMS
  calc fee + CreditCalc.calc_cost_pure pp.dest_response_proposal
        (CreditCalc.calc_response_len_pure mrc) +
      (mrc - (a + (b - a))) * (pp.middle_props.map CreditCalc.respMult).sum +
      (((CreditCalc.enumFromP k (pp.middle_props.drop k)).map
          (CreditCalc.succ_term_pure rq a pp.middle_props.length)).sum +
        (b - a) * ((CreditCalc.enumFromP k (pp.middle_props.drop k)).map
          (fun e => e.2.response.multiplier)).sum)
      = fee + CreditCalc.calc_cost_pure pp.dest_response_proposal
          (CreditCalc.calc_response_len_pure mrc) +
        (mrc - (a + (b - a))) * (pp.middle_props.map CreditCalc.respMult).sum +
        ((CreditCalc.enumFromP k (pp.middle_props.drop k)).map
          (CreditCalc.succ_term_pure rq a pp.middle_props.length)).sum +
        (b - a) * ((CreditCalc.enumFromP k (pp.middle_props.drop k)).map
          (fun e => e.2.response.multiplier)).sum := by ring
    _ ≤ fee + CreditCalc.calc_cost_pure pp.dest_response_proposal
          (CreditCalc.calc_response_len_pure mrc) +
        (mrc - (a + (b - a))) * (pp.middle_props.map CreditCalc.respMult).sum +
        ((CreditCalc.enumFromP k (pp.middle_props.drop k)).map
          (CreditCalc.succ_term_pure rq a pp.middle_props.length)).sum +
        (b - a) * (pp.middle_props.map CreditCalc.respMult).sum :=
        Nat.add_le_add_left hdm _
    _ = fee + CreditCalc.calc_cost_pure pp.dest_response_proposal
          (CreditCalc.calc_response_len_pure mrc) +
        ((mrc - (a + (b - a))) * (pp.middle_props.map CreditCalc.respMult).sum +
          (b - a) * (pp.middle_props.map CreditCalc.respMult).sum) +
        ((CreditCalc.enumFromP k (pp.middle_props.drop k)).map
          (CreditCalc.succ_term_pure rq a pp.middle_props.length)).sum := by ring

/-- C7: for every payment-proposal list, processing fee, request content
length, maxResponseContentLen and hop position for which the checked
computations are defined, `credits_on_success` is monotonically non-increasing
in the response content length over `0..=maxResponseContentLen`, and
`credits_to_freeze` (the success payout at response length 0) is an upper
bound on `credits_on_success` for every defined response length. -/
theorem credits_on_success_antitone_and_freeze_bound
    (pp : CreditCalc.PaymentProposals)
    (fee rq mrc n rcl1 rcl2 v1 v2 vf : Nat)
    (h12 : rcl1 ≤ rcl2)
    (hv1 : CreditCalc.credits_on_success pp fee rq rcl1 mrc n = some v1)
    (hv2 : CreditCalc.credits_on_success pp fee rq rcl2 mrc n = some v2)
    (hf : CreditCalc.credits_to_freeze pp fee rq mrc n = some vf) :
    v2 ≤ v1 ∧ v1 ≤ vf ∧ v2 ≤ vf := by
  obtain ⟨hrm1, _, he1⟩ := CreditCalc.credits_on_success_some hv1
  obtain ⟨hrm2, _, he2⟩ := CreditCalc.credits_on_success_some hv2
  have hf2 : CreditCalc.credits_on_success pp fee rq 0 mrc n = some vf := hf
  obtain ⟨_, _, hef⟩ := CreditCalc.credits_on_success_some hf2
  subst he1 he2 hef
  exact ⟨CreditCalc.success_value_antitone pp fee rq mrc _ rcl1 rcl2 h12 hrm2,
    CreditCalc.success_value_antitone pp fee rq mrc _ 0 rcl1 (Nat.zero_le _) hrm1,
    CreditCalc.success_value_antitone pp fee rq mrc _ 0 rcl2 (Nat.zero_le _) hrm2⟩

set_option maxRecDepth 100000 in
/-- Witness for C7: the sample proposals at fee 10, request length 30, max
response length 40, hop 3; success at lengths 20 and 30 and the freeze amount
are all defined and ordered as claimed. -/
theorem credits_on_success_antitone_and_freeze_bound_witness :
    (20 : Nat) ≤ 30 ∧
    CreditCalc.credits_on_success CreditCalc.sample_props 10 30 20 40 3 = some 9862 ∧
    CreditCalc.credits_on_success CreditCalc.sample_props 10 30 30 40 3 = some 9782 ∧
    CreditCalc.credits_to_freeze CreditCalc.sample_props 10 30 40 3 = some 10022 ∧
    ((9782 : Nat) ≤ 9862 ∧ (9862 : Nat) ≤ 10022 ∧ (9782 : Nat) ≤ 10022) :=
  ⟨by omega, by decide, by decide, by decide,
    credits_on_success_antitone_and_freeze_bound CreditCalc.sample_props
      10 30 40 3 20 30 9862 9782 10022 (by omega) (by decide) (by decide) (by decide)⟩

/-- C8 counterexample: with the all-zero payment proposals (every base and
multiplier zero), request length 0, hop at `nodes_to_dest = 2` (reporting node
`nodes_to_reporting = 0`, `reporting_to_dest = 2 > 1`), response length 0,
both computations are defined and equal (`0`), so `credits_on_failure` is NOT
strictly less than `credits_on_success`. -/
theorem credits_on_failure_lt_success_counterexample :
    CreditCalc.credits_on_failure CreditCalc.zero_props 0 0 2 = some 0 ∧
    CreditCalc.credits_on_success CreditCalc.zero_props 0 0 0 0 2 = some 0 ∧
    ¬ (0 : Nat) < (0 : Nat) :=
  ⟨by decide, by decide, by omega⟩

/-- C8 (amended): for every payment-proposal list, request content length and
valid hop/reporting-hop choice (`reporting_to_dest > 1`, enforced by the
source's assert), whenever both computations are defined,
`credits_on_failure` for the hop is less than or equal to `credits_on_success`
for the same hop (`nodes_to_dest = nodes_to_reporting + reporting_to_dest`)
with the same request, for every defined response content length. -/
theorem credits_on_failure_le_credits_on_success
    (pp : CreditCalc.PaymentProposals)
    (fee rq rc mrc ntr rtd vf vs : Nat)
    (hf : CreditCalc.credits_on_failure pp rq ntr rtd = some vf)
    (hs : CreditCalc.credits_on_success pp fee rq rc mrc (ntr + rtd) = some vs) :
    vf ≤ vs := by
  obtain ⟨h1, hrtdL, hntrle, hef⟩ := CreditCalc.credits_on_failure_some hf
  obtain ⟨hrm, hnL, hes⟩ := CreditCalc.credits_on_success_some hs
  subst hef hes
  have hstart : pp.middle_props.length - (ntr + rtd) =
      pp.middle_props.length - rtd - ntr := by omega
  rw [hstart]
  have hsplit : pp.middle_props.drop (pp.middle_props.length - rtd - ntr) =
      (pp.middle_props.drop (pp.middle_props.length - rtd - ntr)).take ntr ++
        pp.middle_props.drop (pp.middle_props.length - rtd) := by
    have hx := List.drop_take_append_drop pp.middle_props
      (pp.middle_props.length - rtd - ntr) ntr
    rw [show pp.middle_props.length - rtd - ntr + ntr =
      pp.middle_props.length - rtd by omega] at hx
    exact hx.symm
  have hlen : ((pp.middle_props.drop
      (pp.middle_props.length - rtd - ntr)).take ntr).length = ntr := by
    simp only [List.length_take, List.length_drop]
    omega
  have heL : pp.middle_props.length - rtd < pp.middle_props.length := by omega
  have hsum_split : ((CreditCalc.enumFromP (pp.middle_props.length - rtd - ntr)
        (pp.middle_props.drop (pp.middle_props.length - rtd - ntr))).map
      (CreditCalc.succ_term_pure rq rc pp.middle_props.length)).sum =
      ((CreditCalc.enumFromP (pp.middle_props.length - rtd - ntr)
        ((pp.middle_props.drop (pp.middle_props.length - rtd - ntr)).take ntr)).map
        (CreditCalc.succ_term_pure rq rc pp.middle_props.length)).sum +
      (CreditCalc.succ_term_pure rq rc pp.middle_props.length
        (pp.middle_props.length - rtd,
          pp.middle_props.getD (pp.middle_props.length - rtd)
            CreditCalc.defaultPair) +
       ((CreditCalc.enumFromP (pp.middle_props.length - rtd + 1)
          (pp.middle_props.drop (pp.middle_props.length - rtd + 1))).map
        (CreditCalc.succ_term_pure rq rc pp.middle_props.length)).sum) := by
    conv_lhs => rw [hsplit]
    rw [CreditCalc.enumFromP_append, hlen,
      show pp.middle_props.length - rtd - ntr + ntr =
        pp.middle_props.length - rtd by omega,
      drop_getD_cons CreditCalc.defaultPair pp.middle_props
        (pp.middle_props.length - rtd) heL]
    simp only [CreditCalc.enumFromP, List.map_append, List.sum_append,
      List.map_cons, List.sum_cons]
  rw [hsum_split]
  have hA : ((CreditCalc.enumFromP (pp.middle_props.length - rtd - ntr)
        ((pp.middle_props.drop (pp.middle_props.length - rtd - ntr)).take ntr)).map
      (CreditCalc.fail_term_pure rq pp.middle_props.length
        (pp.middle_props.length - rtd))).sum ≤
      ((CreditCalc.enumFromP (pp.middle_props.length - rtd - ntr)
        ((pp.middle_props.drop (pp.middle_props.length - rtd - ntr)).take ntr)).map
      (CreditCalc.succ_term_pure rq rc pp.middle_props.length)).sum :=
    sum_map_le_pointwise _ _ _
      (fun x _ => CreditCalc.fail_term_le_succ_term rq rc _ _ (Nat.sub_le _ _) x)
  have hB : CreditCalc.calc_cost_pure
      (pp.middle_props.getD (pp.middle_props.length - rtd)
        CreditCalc.defaultPair).response
      (CreditCalc.calc_failure_len_pure 0) ≤
      CreditCalc.succ_term_pure rq rc pp.middle_props.length
        (pp.middle_props.length - rtd,
          pp.middle_props.getD (pp.middle_props.length - rtd)
            CreditCalc.defaultPair) := by
    unfold CreditCalc.succ_term_pure
    have hmono : CreditCalc.calc_failure_len_pure 0 ≤
        CreditCalc.calc_response_len_pure rc +
          CreditCalc.calc_failure_len_pure
            (pp.middle_props.length - (pp.middle_props.length - rtd)) :=
      le_trans (CreditCalc.calc_failure_len_pure_mono (Nat.zero_le _))
        (Nat.le_add_left _ _)
    exact le_trans (CreditCalc.calc_cost_pure_mono _ hmono) (Nat.le_add_left _ _)
  omega

set_option maxRecDepth 100000 in
/-- Witness for C8 (amended): sample proposals, request length 30, reporting
node one hop away (`nodes_to_reporting = 1`, `reporting_to_dest = 2`), success
at the same hop (`nodes_to_dest = 3`) with response length 20: failure pays
1240, success 9862. -/
theorem credits_on_failure_le_credits_on_success_witness :
    CreditCalc.credits_on_failure CreditCalc.sample_props 30 1 2 = some 1240 ∧
    CreditCalc.credits_on_success CreditCalc.sample_props 10 30 20 40 3 = some 9862 ∧
    (1240 : Nat) ≤ 9862 :=
  ⟨by decide, by decide,
    credits_on_failure_le_credits_on_success CreditCalc.sample_props
      10 30 20 40 1 2 1240 9862 (by decide) (by decide)⟩

theorem CanonicalSer.canonicalSerializeVec_foldl {T : Type} (ser : T → List Nat)
    (v : List T) (init : List Nat) :
    v.foldl (fun res_data t => res_data ++ ser t) init = init ++ (v.map ser).flatten := by
  induction v generalizing init with
  | nil => simp
  | cons x xs ih => simp [List.foldl, ih, List.append_assoc]

theorem CanonicalSer.beValue_u64BeBytes (n : Nat) :
    CanonicalSer.beValue (CanonicalSer.u64BeBytes n) = n % 2 ^ 64 := by
  simp only [CanonicalSer.beValue, CanonicalSer.u64BeBytes, List.foldl]
  omega

/-- Shared reduction helper: in the `Outgoing` state, with a valid signature
and a message chaining as next in sequence, `simulate_receive_move_token`
defers to `outgoing_to_incoming`. -/
theorem Funder.simulate_outgoing_chain_eq {Op Msg Mut Err : Type} [DecidableEq Op]
    (verify : Funder.FriendMoveToken Op → List Nat → Bool)
    (proc : Funder.ProcessFn Op Msg Mut Err)
    (tc : Funder.TokenChannel Op) (o : Funder.OutgoingMoveToken Op)
    (new : Funder.FriendMoveToken Op)
    (hdir : tc.direction = Funder.MoveTokenDirection.outgoing o)
    (hver : verify new tc.mutual_credit.state.idents.remote_public_key = true)
    (hchain : new.old_token = o.outgoing_move_token_request.friend_move_token.new_token) :
    Funder.simulate_receive_move_token verify proc tc new =
      Funder.outgoing_to_incoming proc tc.mutual_credit
        o.outgoing_move_token_request.friend_move_token new := by
  unfold Funder.simulate_receive_move_token
  rw [hdir]
  simp [hver, Funder.get_cur_move_token, hdir, hchain]

set_option maxRecDepth 10000 in
/-- C1: evaluation of the legacy ledger constructor at the failing input
`balance = 1`.  The claim says `localMaxDebt = max(-b, 0)` (so `0` here), but
`TcBalance::new` computes `cmp::min(-balance, 0) as u128`, whose silent
negative-to-unsigned cast yields `2^128 - 1`.  The other seeded fields do
match the claim (`remoteMaxDebt = max(b, 0) = 1`, both pending debts `0`). -/
theorem legacy_tcBalance_new_local_max_debt_wraps :
    (Legacy.TokenChannel.new [0] [1] 1).state.balance.local_max_debt = 2 ^ 128 - 1 ∧
    (Legacy.TokenChannel.new [0] [1] 1).state.balance.local_max_debt ≠
      Legacy.i128AsU128 (max (-(1 : Int)) 0) ∧
    (Legacy.TokenChannel.new [0] [1] 1).state.balance.remote_max_debt = 1 ∧
    (Legacy.TokenChannel.new [0] [1] 1).state.balance.local_pending_debt = 0 ∧
    (Legacy.TokenChannel.new [0] [1] 1).state.balance.remote_pending_debt = 0 := by
  refine ⟨?_, ?_, ?_, ?_, ?_⟩ <;>
    simp [Legacy.TokenChannel.new, Legacy.TcBalance.new, Legacy.i128AsU128]

/-- C6: for a channel in Incoming state holding `stored` as the last received
move token, `simulate_receive_move_token` returns `Duplicate` exactly when the
received message equals `stored` field-for-field, and returns the error
`ChainInconsistency` whenever the received message differs; being a pure
function of the channel, it performs no mutation. -/
theorem incoming_receive_duplicate_iff
    {Op Msg Mut Err : Type} [DecidableEq Op]
    (verify : Funder.FriendMoveToken Op → List Nat → Bool)
    (proc : Funder.ProcessFn Op Msg Mut Err)
    (tc : Funder.TokenChannel Op) (stored new : Funder.FriendMoveToken Op)
    (hdir : tc.direction = Funder.MoveTokenDirection.incoming stored) :
    (Funder.simulate_receive_move_token verify proc tc new =
        Except.ok Funder.ReceiveMoveTokenOutput.duplicate ↔ new = stored) ∧
    (new ≠ stored →
      Funder.simulate_receive_move_token verify proc tc new =
        Except.error Funder.ReceiveMoveTokenError.chainInconsistency) := by
  unfold Funder.simulate_receive_move_token
  rw [hdir]
  by_cases h : stored = new
  · subst h; simp
  · have h2 : ¬ new = stored := fun hn => h hn.symm
    simp [if_neg h, h2]

/-- Witness for C6: a concrete Incoming channel; the duplicate of the stored
token yields `Duplicate`, and a differing token yields `ChainInconsistency`. -/
theorem incoming_receive_duplicate_iff_witness :
    (Funder.simulate_receive_move_token Funder.sample_verify Funder.sample_proc
        (Funder.TokenChannel.mk
          (Funder.MoveTokenDirection.incoming (Funder.sample_token [3] [5] 0 0))
          Funder.sample_mc) (Funder.sample_token [3] [9] 0 0) =
        Except.ok Funder.ReceiveMoveTokenOutput.duplicate ↔
      Funder.sample_token [3] [9] 0 0 = Funder.sample_token [3] [5] 0 0) ∧
    (Funder.sample_token [3] [9] 0 0 ≠ Funder.sample_token [3] [5] 0 0 →
      Funder.simulate_receive_move_token Funder.sample_verify Funder.sample_proc
        (Funder.TokenChannel.mk
          (Funder.MoveTokenDirection.incoming (Funder.sample_token [3] [5] 0 0))
          Funder.sample_mc) (Funder.sample_token [3] [9] 0 0) =
        Except.error Funder.ReceiveMoveTokenError.chainInconsistency) :=
  incoming_receive_duplicate_iff Funder.sample_verify Funder.sample_proc
    (Funder.TokenChannel.mk
      (Funder.MoveTokenDirection.incoming (Funder.sample_token [3] [5] 0 0))
      Funder.sample_mc) (Funder.sample_token [3] [5] 0 0)
    (Funder.sample_token [3] [9] 0 0) rfl

/-- C5 counterexample: a channel in Outgoing state receiving a correctly
signed message whose `old_token` equals the receiver's own current outgoing
`new_token` (the condition of the claim's second sentence).  The result is the
error `InvalidInconsistencyCounter` — the next-in-sequence path — and not
`RetransmitOutgoing`, refuting the claimed equivalence. -/
theorem outgoing_receive_retransmit_counterexample :
    (Funder.sample_token [5] [9] 1 1).old_token =
      (Funder.get_cur_move_token
        (Funder.TokenChannel.mk
          (Funder.MoveTokenDirection.outgoing
            { outgoing_move_token_request :=
              { friend_move_token := Funder.sample_token [3] [5] 0 0
                token_wanted := false }
              opt_prev_incoming_move_token := none })
          Funder.sample_mc)).new_token ∧
    Funder.simulate_receive_move_token Funder.sample_verify Funder.sample_proc
      (Funder.TokenChannel.mk
        (Funder.MoveTokenDirection.outgoing
          { outgoing_move_token_request :=
            { friend_move_token := Funder.sample_token [3] [5] 0 0
              token_wanted := false }
            opt_prev_incoming_move_token := none })
        Funder.sample_mc)
      (Funder.sample_token [5] [9] 1 1) =
      Except.error Funder.ReceiveMoveTokenError.invalidInconsistencyCounter := by
  exact ⟨rfl, rfl⟩

/-- C5 (amended): for a channel in Outgoing state receiving a correctly
signed message that does not chain as next in sequence, if the pending
outgoing message's `oldToken` equals the received message's `newToken`, the
result is `RetransmitOutgoing` carrying the pending outgoing message (not
`ChainInconsistency`), with no state mutation (the receive function is pure). -/
theorem outgoing_receive_retransmit
    {Op Msg Mut Err : Type} [DecidableEq Op]
    (verify : Funder.FriendMoveToken Op → List Nat → Bool)
    (proc : Funder.ProcessFn Op Msg Mut Err)
    (tc : Funder.TokenChannel Op) (o : Funder.OutgoingMoveToken Op)
    (new : Funder.FriendMoveToken Op)
    (hdir : tc.direction = Funder.MoveTokenDirection.outgoing o)
    (hver : verify new tc.mutual_credit.state.idents.remote_public_key = true)
    (hnochain : new.old_token ≠
      o.outgoing_move_token_request.friend_move_token.new_token)
    (hretr : o.outgoing_move_token_request.friend_move_token.old_token =
      new.new_token) :
    Funder.simulate_receive_move_token verify proc tc new =
      Except.ok (Funder.ReceiveMoveTokenOutput.retransmitOutgoing
        o.outgoing_move_token_request.friend_move_token) := by
  unfold Funder.simulate_receive_move_token
  rw [hdir]
  simp [hver, Funder.get_cur_move_token, hdir, hnochain, hretr]

/-- Witness for C5 (amended): concrete Outgoing channel with pending message
`old_token = [3]`; a received message with `new_token = [3]` that does not
chain is answered by retransmitting the pending message. -/
theorem outgoing_receive_retransmit_witness :
    Funder.simulate_receive_move_token Funder.sample_verify Funder.sample_proc
      (Funder.TokenChannel.mk
        (Funder.MoveTokenDirection.outgoing
          { outgoing_move_token_request :=
            { friend_move_token := Funder.sample_token [3] [5] 0 0
              token_wanted := false }
            opt_prev_incoming_move_token := none })
        Funder.sample_mc)
      (Funder.sample_token [7] [3] 0 0) =
      Except.ok (Funder.ReceiveMoveTokenOutput.retransmitOutgoing
        (Funder.sample_token [3] [5] 0 0)) :=
  outgoing_receive_retransmit Funder.sample_verify Funder.sample_proc
    (Funder.TokenChannel.mk
      (Funder.MoveTokenDirection.outgoing
        { outgoing_move_token_request :=
          { friend_move_token := Funder.sample_token [3] [5] 0 0
            token_wanted := false }
          opt_prev_incoming_move_token := none })
      Funder.sample_mc)
    { outgoing_move_token_request :=
      { friend_move_token := Funder.sample_token [3] [5] 0 0
        token_wanted := false }
      opt_prev_incoming_move_token := none }
    (Funder.sample_token [7] [3] 0 0) rfl rfl (by decide) rfl

/-- C3: for a channel in Outgoing state receiving a correctly signed,
next-in-sequence message passing both counter checks, the result is
`Received` only if the message's stated balance, localPendingDebt and
remotePendingDebt each equal the corresponding fields of the ledger obtained
by replaying the operation list on the clone; if any of the three differs the
result is the error `InvalidStatedBalance` (and, the receive function being
pure, the channel state is unchanged). -/
theorem outgoing_receive_stated_balance_check
    {Op Msg Mut Err : Type} [DecidableEq Op]
    (verify : Funder.FriendMoveToken Op → List Nat → Bool)
    (proc : Funder.ProcessFn Op Msg Mut Err)
    (tc : Funder.TokenChannel Op) (o : Funder.OutgoingMoveToken Op)
    (new : Funder.FriendMoveToken Op)
    (mc2 : Funder.MutualCredit)
    (res : Except Err (List (Funder.ProcessOperationOutput Msg Mut)))
    (hdir : tc.direction = Funder.MoveTokenDirection.outgoing o)
    (hver : verify new tc.mutual_credit.state.idents.remote_public_key = true)
    (hchain : new.old_token =
      o.outgoing_move_token_request.friend_move_token.new_token)
    (hinc : new.inconsistency_counter =
      o.outgoing_move_token_request.friend_move_token.inconsistency_counter)
    (hlt : o.outgoing_move_token_request.friend_move_token.move_token_counter + 1 < U128)
    (hmtc : new.move_token_counter =
      o.outgoing_move_token_request.friend_move_token.move_token_counter + 1)
    (hproc : proc tc.mutual_credit new.operations = (mc2, res)) :
    (∀ r, Funder.simulate_receive_move_token verify proc tc new =
        Except.ok (Funder.ReceiveMoveTokenOutput.received r) →
      Funder.stated_balance_matches mc2 new) ∧
    (¬ Funder.stated_balance_matches mc2 new →
      Funder.simulate_receive_move_token verify proc tc new =
        Except.error Funder.ReceiveMoveTokenError.invalidStatedBalance) := by
  rw [Funder.simulate_outgoing_chain_eq verify proc tc o new hdir hver hchain]
  unfold Funder.outgoing_to_incoming
  simp only [hinc, hmtc, checkedAdd, hproc, hlt, ne_eq, not_true_eq_false,
    eq_self_iff_true, if_true, if_false, ite_true, ite_false]
  by_cases hm : Funder.stated_balance_matches mc2 new
  · obtain ⟨h1, h2, h3⟩ := hm
    refine ⟨fun r _ => ⟨h1, h2, h3⟩, fun hc => absurd ⟨h1, h2, h3⟩ hc⟩
  · have hcond : mc2.state.balance.balance ≠ new.balance ∨
        mc2.state.balance.local_pending_debt ≠ new.local_pending_debt ∨
        mc2.state.balance.remote_pending_debt ≠ new.remote_pending_debt := by
      by_contra hc
      push_neg at hc
      exact hm ⟨hc.1, hc.2.1, hc.2.2⟩
    rw [if_pos hcond]
    exact ⟨fun r hr => absurd hr (by simp), fun _ => rfl⟩

/-- Witness for C3: a concrete Outgoing channel and a chaining, counter-correct
message whose stated triple matches the replay (the identity processor), so
`Received` is reachable and the mismatch branch is vacuous. -/
theorem outgoing_receive_stated_balance_check_witness :
    (∀ r, Funder.simulate_receive_move_token Funder.sample_verify Funder.sample_proc
        (Funder.TokenChannel.mk
          (Funder.MoveTokenDirection.outgoing
            { outgoing_move_token_request :=
              { friend_move_token := Funder.sample_token [3] [5] 0 0
                token_wanted := false }
              opt_prev_incoming_move_token := none })
          Funder.sample_mc)
        (Funder.sample_token [5] [9] 0 1) =
        Except.ok (Funder.ReceiveMoveTokenOutput.received r) →
      Funder.stated_balance_matches Funder.sample_mc (Funder.sample_token [5] [9] 0 1)) ∧
    (¬ Funder.stated_balance_matches Funder.sample_mc (Funder.sample_token [5] [9] 0 1) →
      Funder.simulate_receive_move_token Funder.sample_verify Funder.sample_proc
        (Funder.TokenChannel.mk
          (Funder.MoveTokenDirection.outgoing
            { outgoing_move_token_request :=
              { friend_move_token := Funder.sample_token [3] [5] 0 0
                token_wanted := false }
              opt_prev_incoming_move_token := none })
          Funder.sample_mc)
        (Funder.sample_token [5] [9] 0 1) =
        Except.error Funder.ReceiveMoveTokenError.invalidStatedBalance) :=
  outgoing_receive_stated_balance_check Funder.sample_verify Funder.sample_proc
    (Funder.TokenChannel.mk
      (Funder.MoveTokenDirection.outgoing
        { outgoing_move_token_request :=
          { friend_move_token := Funder.sample_token [3] [5] 0 0
            token_wanted := false }
          opt_prev_incoming_move_token := none })
      Funder.sample_mc)
    { outgoing_move_token_request :=
      { friend_move_token := Funder.sample_token [3] [5] 0 0
        token_wanted := false }
      opt_prev_incoming_move_token := none }
    (Funder.sample_token [5] [9] 0 1) Funder.sample_mc (Except.ok [])
    rfl rfl rfl rfl (by simp only [Funder.sample_token]; norm_num [U128]) rfl rfl

/-- C4: for a channel in Outgoing state receiving a correctly signed,
next-in-sequence message, an `inconsistencyCounter` differing from the current
one yields `InvalidInconsistencyCounter`; with equal inconsistency counters, a
current `moveTokenCounter` at the maximum `u128` value makes the checked add
overflow and yields `MoveTokenCounterOverflow`; otherwise a `moveTokenCounter`
different from current + 1 yields `InvalidMoveTokenCounter`.  The receive
function is pure, so the channel state is unchanged in every error case. -/
theorem outgoing_receive_counter_checks
    {Op Msg Mut Err : Type} [DecidableEq Op]
    (verify : Funder.FriendMoveToken Op → List Nat → Bool)
    (proc : Funder.ProcessFn Op Msg Mut Err)
    (tc : Funder.TokenChannel Op) (o : Funder.OutgoingMoveToken Op)
    (new : Funder.FriendMoveToken Op)
    (hdir : tc.direction = Funder.MoveTokenDirection.outgoing o)
    (hver : verify new tc.mutual_credit.state.idents.remote_public_key = true)
    (hchain : new.old_token =
      o.outgoing_move_token_request.friend_move_token.new_token) :
    (new.inconsistency_counter ≠
        o.outgoing_move_token_request.friend_move_token.inconsistency_counter →
      Funder.simulate_receive_move_token verify proc tc new =
        Except.error Funder.ReceiveMoveTokenError.invalidInconsistencyCounter) ∧
    (new.inconsistency_counter =
        o.outgoing_move_token_request.friend_move_token.inconsistency_counter →
      o.outgoing_move_token_request.friend_move_token.move_token_counter = U128 - 1 →
      Funder.simulate_receive_move_token verify proc tc new =
        Except.error Funder.ReceiveMoveTokenError.moveTokenCounterOverflow) ∧
    (new.inconsistency_counter =
        o.outgoing_move_token_request.friend_move_token.inconsistency_counter →
      o.outgoing_move_token_request.friend_move_token.move_token_counter + 1 < U128 →
      new.move_token_counter ≠
        o.outgoing_move_token_request.friend_move_token.move_token_counter + 1 →
      Funder.simulate_receive_move_token verify proc tc new =
        Except.error Funder.ReceiveMoveTokenError.invalidMoveTokenCounter) := by
  rw [Funder.simulate_outgoing_chain_eq verify proc tc o new hdir hver hchain]
  unfold Funder.outgoing_to_incoming
  refine ⟨fun hne => ?_, fun heq hmax => ?_, fun heq hlt hne2 => ?_⟩
  · rw [if_pos hne]
  · rw [if_neg (by simp [heq])]
    have hnone : checkedAdd U128
        o.outgoing_move_token_request.friend_move_token.move_token_counter 1 = none := by
      have : (0 : Nat) < U128 := by norm_num [U128]
      simp only [checkedAdd, hmax]
      rw [if_neg (by omega)]
    rw [hnone]
  · rw [if_neg (by simp [heq])]
    have hsome : checkedAdd U128
        o.outgoing_move_token_request.friend_move_token.move_token_counter 1 =
        some (o.outgoing_move_token_request.friend_move_token.move_token_counter + 1) := by
      simp only [checkedAdd]
      rw [if_pos hlt]
    rw [hsome]
    simp only [if_pos hne2]

/-- Witness for C4: concrete Outgoing channel whose pending message carries the
maximal `u128` move-token counter; all three error branches are exercised by
the conclusion's implications. -/
theorem outgoing_receive_counter_checks_witness :
    (Funder.sample_token [5] [9] 1 1).inconsistency_counter ≠
        (Funder.sample_token [3] [5] 0 (U128 - 1)).inconsistency_counter ∧
    ((Funder.sample_token [5] [9] 1 1).inconsistency_counter ≠
        (Funder.sample_token [3] [5] 0 (U128 - 1)).inconsistency_counter →
      Funder.simulate_receive_move_token Funder.sample_verify Funder.sample_proc
        (Funder.TokenChannel.mk
          (Funder.MoveTokenDirection.outgoing
            { outgoing_move_token_request :=
              { friend_move_token := Funder.sample_token [3] [5] 0 (U128 - 1)
                token_wanted := false }
              opt_prev_incoming_move_token := none })
          Funder.sample_mc)
        (Funder.sample_token [5] [9] 1 1) =
        Except.error Funder.ReceiveMoveTokenError.invalidInconsistencyCounter) ∧
    ((Funder.sample_token [5] [9] 0 1).inconsistency_counter =
        (Funder.sample_token [3] [5] 0 (U128 - 1)).inconsistency_counter →
      (Funder.sample_token [3] [5] 0 (U128 - 1)).move_token_counter = U128 - 1 →
      Funder.simulate_receive_move_token Funder.sample_verify Funder.sample_proc
        (Funder.TokenChannel.mk
          (Funder.MoveTokenDirection.outgoing
            { outgoing_move_token_request :=
              { friend_move_token := Funder.sample_token [3] [5] 0 (U128 - 1)
                token_wanted := false }
              opt_prev_incoming_move_token := none })
          Funder.sample_mc)
        (Funder.sample_token [5] [9] 0 1) =
        Except.error Funder.ReceiveMoveTokenError.moveTokenCounterOverflow) := by
  refine ⟨by decide, ?_, ?_⟩
  · exact (outgoing_receive_counter_checks Funder.sample_verify Funder.sample_proc
      (Funder.TokenChannel.mk
        (Funder.MoveTokenDirection.outgoing
          { outgoing_move_token_request :=
            { friend_move_token := Funder.sample_token [3] [5] 0 (U128 - 1)
              token_wanted := false }
            opt_prev_incoming_move_token := none })
        Funder.sample_mc)
      { outgoing_move_token_request :=
        { friend_move_token := Funder.sample_token [3] [5] 0 (U128 - 1)
          token_wanted := false }
        opt_prev_incoming_move_token := none }
      (Funder.sample_token [5] [9] 1 1) rfl rfl rfl).1
  · exact (outgoing_receive_counter_checks Funder.sample_verify Funder.sample_proc
      (Funder.TokenChannel.mk
        (Funder.MoveTokenDirection.outgoing
          { outgoing_move_token_request :=
            { friend_move_token := Funder.sample_token [3] [5] 0 (U128 - 1)
              token_wanted := false }
            opt_prev_incoming_move_token := none })
        Funder.sample_mc)
      { outgoing_move_token_request :=
        { friend_move_token := Funder.sample_token [3] [5] 0 (U128 - 1)
          token_wanted := false }
        opt_prev_incoming_move_token := none }
      (Funder.sample_token [5] [9] 0 1) rfl rfl rfl).2.1

set_option maxRecDepth 100000 in
/-- C2: evaluation of genesis at two concrete distinct keys (`sample_sha` is
an injective stand-in for SHA-512/256).  The directions are complementary as
claimed — the hash-smaller key A starts Outgoing, B starts Incoming — but the
placeholder move tokens held by the two sides are NOT identical: A's side
holds `old_token = pad(A), new_token = pad(B)` while B's side stores
`old_token = pad(B), new_token = pad(A)` (and nonces derived from different
keys), because `first_move_token_lower` is built from the local/remote
perspective in both branches.  This contradicts the claim and the code's own
synchronization comment. -/
theorem genesis_placeholder_tokens_differ :
    Funder.is_outgoing Funder.sample_tc_ab = true ∧
    Funder.is_outgoing Funder.sample_tc_ba = false ∧
    Option.map (fun r => r.friend_move_token)
        (Funder.get_outgoing_move_token Funder.sample_tc_ab) ≠
      Funder.get_last_incoming_move_token Funder.sample_tc_ba ∧
    (Funder.get_outgoing_move_token Funder.sample_tc_ab).isSome = true ∧
    (Funder.get_last_incoming_move_token Funder.sample_tc_ba).isSome = true ∧
    Option.map (fun r => r.friend_move_token.new_token)
        (Funder.get_outgoing_move_token Funder.sample_tc_ab) =
      some (Funder.token_from_public_key Funder.sample_key_b) ∧
    Option.map (fun t => t.new_token)
        (Funder.get_last_incoming_move_token Funder.sample_tc_ba) =
      some (Funder.token_from_public_key Funder.sample_key_a) ∧
    Funder.token_from_public_key Funder.sample_key_a ≠
      Funder.token_from_public_key Funder.sample_key_b := by
  refine ⟨?_, ?_, ?_, ?_, ?_, ?_, ?_, ?_⟩ <;> decide

/-- C10: in the next-in-sequence receive path the stated-balance comparison is
evaluated against the cloned ledger before the replay result is examined:
whenever the clone's triple differs from the stated triple the result is
`InvalidStatedBalance` even if the replay failed, and `InvalidTransaction` is
surfaced exactly when the replay fails AND the (possibly partially applied)
clone's triple equals the stated triple.  The final conjunct exhibits a
concrete received move token (modelled processor) whose replay fails after
partially applying a request, yielding `InvalidStatedBalance` rather than
`InvalidTransaction`. -/
theorem invalid_stated_balance_shadows_transaction_error
    {Op Msg Mut Err : Type} [DecidableEq Op]
    (verify : Funder.FriendMoveToken Op → List Nat → Bool)
    (proc : Funder.ProcessFn Op Msg Mut Err)
    (tc : Funder.TokenChannel Op) (o : Funder.OutgoingMoveToken Op)
    (new : Funder.FriendMoveToken Op)
    (mc2 : Funder.MutualCredit)
    (res : Except Err (List (Funder.ProcessOperationOutput Msg Mut)))
    (hdir : tc.direction = Funder.MoveTokenDirection.outgoing o)
    (hver : verify new tc.mutual_credit.state.idents.remote_public_key = true)
    (hchain : new.old_token =
      o.outgoing_move_token_request.friend_move_token.new_token)
    (hinc : new.inconsistency_counter =
      o.outgoing_move_token_request.friend_move_token.inconsistency_counter)
    (hlt : o.outgoing_move_token_request.friend_move_token.move_token_counter + 1 < U128)
    (hmtc : new.move_token_counter =
      o.outgoing_move_token_request.friend_move_token.move_token_counter + 1)
    (hproc : proc tc.mutual_credit new.operations = (mc2, res)) :
    (¬ Funder.stated_balance_matches mc2 new →
      Funder.simulate_receive_move_token verify proc tc new =
        Except.error Funder.ReceiveMoveTokenError.invalidStatedBalance) ∧
    (∀ e, res = Except.error e →
      (Funder.simulate_receive_move_token verify proc tc new =
          Except.error (Funder.ReceiveMoveTokenError.invalidTransaction e) ↔
        Funder.stated_balance_matches mc2 new)) ∧
    (Funder.c10_replay.1 ≠ Funder.c10_tc.mutual_credit ∧
     Funder.c10_replay.2 = Except.error Funder.SpecProcessError.unknownRequestId ∧
     Funder.simulate_receive_move_token Funder.sample_verify_spec
        Funder.process_operations_list_spec Funder.c10_tc Funder.c10_new =
       Except.error Funder.ReceiveMoveTokenError.invalidStatedBalance) := by
  rw [Funder.simulate_outgoing_chain_eq verify proc tc o new hdir hver hchain]
  unfold Funder.outgoing_to_incoming
  simp only [hinc, hmtc, checkedAdd, hproc, hlt, ne_eq, not_true_eq_false,
    eq_self_iff_true, if_true, if_false, ite_true, ite_false]
  refine ⟨?_, ?_, by decide, by decide, by decide⟩
  · intro hm
    have hcond : mc2.state.balance.balance ≠ new.balance ∨
        mc2.state.balance.local_pending_debt ≠ new.local_pending_debt ∨
        mc2.state.balance.remote_pending_debt ≠ new.remote_pending_debt := by
      by_contra hc
      push_neg at hc
      exact hm ⟨hc.1, hc.2.1, hc.2.2⟩
    rw [if_pos hcond]
  · intro e he
    by_cases hm : Funder.stated_balance_matches mc2 new
    · obtain ⟨h1, h2, h3⟩ := hm
      simp only [h1, h2, h3, ne_eq, not_true_eq_false, or_self, false_or, if_false,
        ite_false, he]
      exact ⟨fun _ => ⟨h1, h2, h3⟩, fun _ => trivial⟩
    · have hcond : mc2.state.balance.balance ≠ new.balance ∨
          mc2.state.balance.local_pending_debt ≠ new.local_pending_debt ∨
          mc2.state.balance.remote_pending_debt ≠ new.remote_pending_debt := by
        by_contra hc
        push_neg at hc
        exact hm ⟨hc.1, hc.2.1, hc.2.2⟩
      rw [if_pos hcond]
      exact ⟨fun hr => absurd hr (by simp), fun hr => absurd hr hm⟩

/-- Witness for C10: the partial-application scenario itself discharges every
hypothesis; the replayed clone differs from the stated triple, so the result
is `InvalidStatedBalance` even though the replay failed. -/
theorem invalid_stated_balance_shadows_transaction_error_witness :
    (¬ Funder.stated_balance_matches Funder.c10_replay.1 Funder.c10_new →
      Funder.simulate_receive_move_token Funder.sample_verify_spec
          Funder.process_operations_list_spec Funder.c10_tc Funder.c10_new =
        Except.error Funder.ReceiveMoveTokenError.invalidStatedBalance) ∧
    (∀ e, Funder.c10_replay.2 = Except.error e →
      (Funder.simulate_receive_move_token Funder.sample_verify_spec
          Funder.process_operations_list_spec Funder.c10_tc Funder.c10_new =
          Except.error (Funder.ReceiveMoveTokenError.invalidTransaction e) ↔
        Funder.stated_balance_matches Funder.c10_replay.1 Funder.c10_new)) ∧
    (Funder.c10_replay.1 ≠ Funder.c10_tc.mutual_credit ∧
     Funder.c10_replay.2 = Except.error Funder.SpecProcessError.unknownRequestId ∧
     Funder.simulate_receive_move_token Funder.sample_verify_spec
        Funder.process_operations_list_spec Funder.c10_tc Funder.c10_new =
       Except.error Funder.ReceiveMoveTokenError.invalidStatedBalance) :=
  invalid_stated_balance_shadows_transaction_error
    Funder.sample_verify_spec Funder.process_operations_list_spec Funder.c10_tc
    { outgoing_move_token_request :=
      { friend_move_token := Funder.c10_fmt
        token_wanted := false }
      opt_prev_incoming_move_token := none }
    Funder.c10_new Funder.c10_replay.1 Funder.c10_replay.2
    rfl rfl rfl rfl (by simp only [Funder.c10_fmt]; norm_num [U128]) rfl rfl

/-- C9: `canonical_serialize` of a `Vec<T>` is the 8-byte big-endian encoding
of the length followed by the concatenation of the elements' serializations in
order (the big-endian reading of the prefix recovers the length), and
`canonical_serialize` of an `Option<T>` is the byte `0` for `None` and the
byte `1` followed by the element's serialization for `Some`. -/
theorem canonical_serialize_vec_option_spec {T : Type} (ser : T → List Nat)
    (v : List T) (t : T) :
    CanonicalSer.canonicalSerializeVec ser v =
      CanonicalSer.u64BeBytes v.length ++ (v.map ser).flatten ∧
    (CanonicalSer.u64BeBytes v.length).length = 8 ∧
    CanonicalSer.beValue (CanonicalSer.u64BeBytes v.length) = v.length % 2 ^ 64 ∧
    CanonicalSer.canonicalSerializeOption ser (none : Option T) = [0] ∧
    CanonicalSer.canonicalSerializeOption ser (some t) = 1 :: ser t := by
  refine ⟨CanonicalSer.canonicalSerializeVec_foldl ser v _, rfl,
    CanonicalSer.beValue_u64BeBytes v.length, rfl, rfl⟩
